import Mathlib

/-!
Verification of the Etekcity Fit 8S / ESF-551 BLE scale driver.

Shallow embedding of the driver's pure core:
* frame codecs: the 22-byte GATT notification decoder and the 20-byte
  ManufacturerData 0x06D0 advertisement decoder;
* the advertisement stabilizer step (quantization, repeat counting,
  stability decision, rate-limited emission);
* the body-composition metrics cascade over optional inputs;
* the connection-session callback (connect, unit-change write, subscribe,
  revision reads) and a small-step model of concurrent advertisement
  callbacks racing for the Disconnected-to-Connecting transition.

Machine floats of the source are modelled as exact rationals; Python
dictionaries keyed by address as functions to Option; Python exceptions
as explicit Option/Except results.
-/

/-! ## Numeric helpers mirroring Python primitives -/

/-- Python builtin round-to-int: round-half-to-even on the value. -/
def pyRoundInt (q : ℚ) : ℤ :=
  let f : ℤ := ⌊q⌋
  let frac : ℚ := q - (f : ℚ)
  if frac < 1/2 then f
  else if 1/2 < frac then f + 1
  else if f % 2 = 0 then f else f + 1

/-- Python round(x, dp): round-half-to-even keeping dp decimal digits. -/
def pyRound (dp : ℕ) (q : ℚ) : ℚ :=
  (pyRoundInt (q * (10 : ℚ) ^ dp) : ℚ) / (10 : ℚ) ^ dp

/-- Python int() applied to a float: truncation toward zero. -/
def pyTrunc (q : ℚ) : ℤ :=
  if q < 0 then ⌈q⌉ else ⌊q⌋

/-- little-endian 16-bit unsigned integer read at offset i. -/
def le16 (p : List ℕ) (i : ℕ) : ℕ :=
  p.getD i 0 + p.getD (i + 1) 0 * 256

/-- little-endian 24-bit unsigned integer read at offset i
(struct.unpack of a 3-byte slice left-justified with a zero byte). -/
def le24 (p : List ℕ) (i : ℕ) : ℕ :=
  p.getD i 0 + p.getD (i + 1) 0 * 256 + p.getD (i + 2) 0 * 65536

/-- Upper-case hexadecimal digit. -/
def hexDigitUpper (n : ℕ) : Char :=
  if n < 10 then Char.ofNat (48 + n) else Char.ofNat (55 + n)

/-- Lower-case hexadecimal digit. -/
def hexDigitLower (n : ℕ) : Char :=
  if n < 10 then Char.ofNat (48 + n) else Char.ofNat (87 + n)

/-- Two-digit upper-case hex rendering of a byte, as in an f-string 02X. -/
def byteHexUpper (b : ℕ) : String :=
  String.mk [hexDigitUpper (b / 16 % 16), hexDigitUpper (b % 16)]

/-- Two-digit lower-case hex rendering of a byte, as in bytes.hex(). -/
def byteHexLower (b : ℕ) : String :=
  String.mk [hexDigitLower (b / 16 % 16), hexDigitLower (b % 16)]

/-- bytes.hex() of a payload. -/
def rawHexOf (p : List ℕ) : String :=
  String.join (p.map byteHexLower)

/-! ## FrameCodec: GATT notification decoder (parser.py, parse) -/

/-- Parsed GATT notification: the dict built by parse, with the impedance
key present only under the byte 20 / non-zero impedance condition. -/
structure GattParsed where
  displayUnit : ℕ
  weight : ℚ
  impedance : Option ℕ
deriving DecidableEq, Repr

/-- parse (parser.py lines 112-144): validity checks on the 22-byte frame,
then weight from the little-endian 24-bit field at offset 10 divided by
1000 and rounded to 2 decimals, display unit from byte 21, impedance from
the little-endian 16-bit field at offset 13 gated by byte 20. -/
def parse (payload : List ℕ) : Option GattParsed :=
  if payload.length = 22 ∧ payload.getD 19 0 = 1
      ∧ payload.take 2 = [0xA5, 0x02]
      ∧ (payload.drop 3).take 2 = [0x10, 0x00]
      ∧ (payload.drop 6).take 4 = [0x01, 0x61, 0xA1, 0x00] then
    let weight := le24 payload 10
    let impedance := le16 payload 13
    some { displayUnit := payload.getD 21 0
           weight := pyRound 2 ((weight : ℚ) / 1000)
           impedance :=
             if payload.getD 20 0 = 1 ∧ impedance ≠ 0 then some impedance
             else none }
  else none

/-! ## FrameCodec: ManufacturerData 0x06D0 decoder (adv_reader.py) -/

/-- Result dictionary of the advertisement decoder: mac, weight and
impedance keys hold None on any failed check, raw_hex always present. -/
structure MfrParsed where
  mac : Option String
  weight : Option ℚ
  impedance : Option ℕ
  rawHex : String
deriving DecidableEq, Repr

/-- MAC rendering: bytes 1..6 reversed, colon-separated upper-case hex. -/
def macOfPayload (payload : List ℕ) : String :=
  String.intercalate ":" (((payload.drop 1).take 6).reverse.map byteHexUpper)

/-- The 20-byte ManufacturerData 0x06D0 decoder
(adv_reader.py lines 33-59). -/
def parseMfr06d0 (payload : List ℕ) : MfrParsed :=
  if payload.length ≠ 20 ∨ payload.getD 0 0 ≠ 1 then
    { mac := none, weight := none, impedance := none, rawHex := rawHexOf payload }
  else
    let grams := le24 payload 10
    let imp := le16 payload 13
    { mac := some (macOfPayload payload)
      weight := if grams > 0 then some (pyRound 3 ((grams : ℚ) / 1000)) else none
      impedance := if imp ≠ 0 then some imp else none
      rawHex := rawHexOf payload }

/-- The test vector of C5: A5 02 00 10 00 00 01 61 A1 00 E8 03 00 64 00 00
00 00 00 01 01 00. -/
def gattVectorC5 : List ℕ :=
  [0xA5, 0x02, 0x00, 0x10, 0x00, 0x00, 0x01, 0x61, 0xA1, 0x00,
   0xE8, 0x03, 0x00, 0x64, 0x00, 0x00, 0x00, 0x00, 0x00, 0x01, 0x01, 0x00]

/-- The first advertisement test vector of C6 (impedance present). -/
def advVectorImp : List ℕ :=
  [0x01, 0xFF, 0xEE, 0xDD, 0xCC, 0xBB, 0xAA, 0xC0, 0xA8, 0x01,
   0xD0, 0x01, 0x01, 0x2C, 0x01, 0x01, 0x01, 0x02, 0x03, 0x00]

/-- The second advertisement test vector of C6 (impedance bytes zero). -/
def advVectorNoImp : List ℕ :=
  [0x01, 0xFF, 0xEE, 0xDD, 0xCC, 0xBB, 0xAA, 0xC0, 0xA8, 0x01,
   0x2F, 0x00, 0x00, 0x00, 0x00, 0x01, 0x01, 0x02, 0x03, 0x00]

/-! ## AdvertisementStabilizer (adv_reader.py, listen_advertisements) -/

/-- Quantize a weight to the nearest multiple of the step
(_quantize_weight: round(round(w / step) * step, 3)). -/
def quantizeWeight (w step : ℚ) : ℚ :=
  pyRound 3 ((pyRoundInt (w / step) : ℚ) * step)

/-- One advertisement sample after decoding: address, unquantized weight,
optional impedance, and the wall-clock time of processing. -/
structure AdvSample where
  addr : String
  weight : ℚ
  imp : Option ℕ
  now : ℚ
deriving DecidableEq, Repr

/-- The six stabilizer tuning parameters of listen_advertisements. -/
structure StabParams where
  stableRepeats : ℕ
  minDeltaKg : ℚ
  weightEpsilonKg : ℚ
  emitTransients : Bool
  minEmitIntervalS : ℚ
deriving DecidableEq, Repr

/-- The default tuning: stable_repeats=10, min_delta_kg=0.02,
weight_epsilon_kg=0.02, emit_transients=False, min_emit_interval_s=1.0. -/
def defaultStabParams : StabParams :=
  { stableRepeats := 10, minDeltaKg := 1/50, weightEpsilonKg := 1/50,
    emitTransients := false, minEmitIntervalS := 1 }

/-- The four per-address dictionaries of listen_advertisements. -/
structure StabState where
  lastSeenQ : String → Option ℚ
  repeatCount : String → Option ℕ
  lastEmitTs : String → Option ℚ
  lastEmitQ : String → Option ℚ

/-- All four dictionaries start empty. -/
def initStabState : StabState :=
  { lastSeenQ := fun _ => none, repeatCount := fun _ => none,
    lastEmitTs := fun _ => none, lastEmitQ := fun _ => none }

/-- Dictionary store at a key. -/
def mapSet {α : Type} (m : String → Option α) (k : String) (v : α) :
    String → Option α :=
  fun x => if x = k then some v else m x

/-- The emitted reading (AdvReading restricted to the fields the
emission logic produces; RSSI and raw hex pass through unmodified). -/
structure AdvReadingM where
  address : String
  weightKg : ℚ
  impedanceOhm : Option ℕ
  stable : Bool
  ts : ℚ
deriving DecidableEq, Repr

/-- Repeat counting of _on_detect (adv_reader.py lines 153-159): reset
the repeat count to 1 and store the quantized weight as last-seen when
there is no prior value or the quantized difference exceeds half an
epsilon, else increment the count. -/
def seenAfter (p : StabParams) (st : StabState) (s : AdvSample) : StabState :=
  let wq := quantizeWeight s.weight p.weightEpsilonKg
  let resetSeen : Bool :=
    match st.lastSeenQ s.addr with
    | none => true
    | some pq => decide (|wq - pq| > p.weightEpsilonKg / 2)
  if resetSeen then
    { st with lastSeenQ := mapSet st.lastSeenQ s.addr wq,
              repeatCount := mapSet st.repeatCount s.addr 1 }
  else
    { st with repeatCount :=
        mapSet st.repeatCount s.addr ((st.repeatCount s.addr).getD 1 + 1) }

/-- Stability decision of _on_detect (adv_reader.py line 162): impedance
present, or the updated repeat count reached stable_repeats. -/
def stableAfter (p : StabParams) (st : StabState) (s : AdvSample) : Bool :=
  s.imp.isSome
    || decide (((seenAfter p st s).repeatCount s.addr).getD 0 ≥ p.stableRepeats)

/-- Emission gate of _on_detect (adv_reader.py lines 164-186), reading
the last-emitted dictionaries, which the repeat-counting step leaves
untouched. -/
def doEmitFlag (p : StabParams) (st : StabState) (s : AdvSample) : Bool :=
  let wq := quantizeWeight s.weight p.weightEpsilonKg
  let lastTs : ℚ := (st.lastEmitTs s.addr).getD 0
  let lastQ : Option ℚ := st.lastEmitQ s.addr
  let emitAllowedTransient : Bool :=
    if ¬ p.emitTransients then false
    else if s.now - lastTs < p.minEmitIntervalS then false
    else
      match lastQ with
      | none => true
      | some q => decide (|wq - q| ≥ p.minDeltaKg)
  if stableAfter p st s then
    match lastQ with
    | none => true
    | some q =>
      decide (|wq - q| > p.weightEpsilonKg / 2)
        || decide (s.now - lastTs ≥ p.minEmitIntervalS)
  else emitAllowedTransient

/-- The stateful core of _on_detect (adv_reader.py lines 150-203) for one
sample that passed the filters and carries a weight: repeat counting,
stability decision, emission gate, and emission bookkeeping. Returns the
updated dictionaries, the stability flag, and the emitted reading when
the gate passes. -/
def onDetect (p : StabParams) (st : StabState) (s : AdvSample) :
    StabState × Bool × Option AdvReadingM :=
  let wq := quantizeWeight s.weight p.weightEpsilonKg
  let st1 := seenAfter p st s
  let stable := stableAfter p st s
  if doEmitFlag p st s then
    ({ st1 with lastEmitTs := mapSet st1.lastEmitTs s.addr s.now,
                lastEmitQ := mapSet st1.lastEmitQ s.addr wq },
     stable,
     some { address := s.addr, weightKg := s.weight, impedanceOhm := s.imp,
            stable := stable, ts := s.now })
  else (st1, stable, none)

/-- The stability flags produced by processing a list of samples in order. -/
def stableFlagsList (p : StabParams) (st : StabState) :
    List AdvSample → List Bool
  | [] => []
  | s :: rest =>
    let r := onDetect p st s
    r.2.1 :: stableFlagsList p r.1 rest

/-- n identical impedance-free samples at a fixed address. -/
def identSamples (w : ℚ) (n : ℕ) : List AdvSample :=
  List.replicate n { addr := "A", weight := w, imp := none, now := 0 }

/-- The reset condition of the repeat counter: no prior last-seen
quantized value, or a quantized difference of more than half an epsilon. -/
def resetCond (p : StabParams) (st : StabState) (s : AdvSample) : Prop :=
  st.lastSeenQ s.addr = none ∨
    ∃ pq, st.lastSeenQ s.addr = some pq ∧
      |quantizeWeight s.weight p.weightEpsilonKg - pq| > p.weightEpsilonKg / 2

/-! ## MetricsEngine (etekcity_fit8s_ble/body_metrics.py, BodyMetrics) -/

/-- Biological sex, indexing the per-sex coefficient pairs (Male=0,
Female=1). -/
inductive Sex
  | Male
  | Female
deriving DecidableEq, Repr

/-- Two-element coefficient list indexed by sex, as in factor[self.sex]. -/
def sexIdx (m f : ℚ) : Sex → ℚ
  | Sex.Male => m
  | Sex.Female => f

/-- The constructor inputs of BodyMetrics: weight and impedance may be
absent. -/
structure BMInput where
  weight : Option ℚ
  height : ℚ
  age : ℤ
  sex : Sex
  impedance : Option ℤ
deriving DecidableEq, Repr

/-- body_mass_index: floor(weight / height^2 * 100) / 100, absent without
weight. -/
def body_mass_index (i : BMInput) : Option ℚ :=
  match i.weight with
  | none => none
  | some w => some ((⌊w / i.height ^ 2 * 100⌋ : ℚ) / 100)

/-- body_fat_percentage: absent when weight is absent, impedance is absent
or impedance equals 0, or BMI is absent; otherwise the sex-indexed formula
with the 500/impedance term, floored to one decimal and clamped to
[5, 75]. -/
def body_fat_percentage (i : BMInput) : Option ℚ :=
  match i.weight, i.impedance with
  | some _, some z =>
    if z = 0 then none
    else
      match body_mass_index i with
      | none => none
      | some bmi =>
        let bfp : ℚ :=
          (⌊(sexIdx (103/1000) (97/1000) i.sex * (i.age : ℚ)
              + sexIdx (1524/1000) (1545/1000) i.sex * bmi
              - 500 / (z : ℚ)
              - sexIdx 22 (127/10) i.sex) * 10⌋ : ℚ) / 10
        some (max 5 (min 75 bfp))
  | _, _ => none

/-- fat_free_weight: weight * (1 - BFP/100) rounded to 2 decimals. -/
def fat_free_weight (i : BMInput) : Option ℚ :=
  match i.weight, body_fat_percentage i with
  | some w, some bfp => some (pyRound 2 (w * (1 - bfp / 100)))
  | _, _ => none

/-- visceral_fat_value: sex-indexed affine combination of BMI, BFP and fat
weight, truncated to an integer and clamped to [1, 30]. -/
def visceral_fat_value (i : BMInput) : Option ℤ :=
  match body_mass_index i, body_fat_percentage i, i.weight,
      fat_free_weight i with
  | some bmi, some bfp, some w, some ffw =>
    let vfv : ℤ :=
      pyTrunc (sexIdx (8666/10000) (8895/10000) i.sex * bmi
        + sexIdx (82/10000) (943/10000) i.sex * bfp
        + sexIdx (26/1000) (-534/10000) i.sex * (w - ffw)
        - sexIdx (142692/10000) (16215/1000) i.sex)
    some (max 1 (min 30 vfv))
  | _, _, _, _ => none

/-- subcutaneous_fat_percentage: sex-indexed combination of BFP and VFV,
rounded to 1 decimal. -/
def subcutaneous_fat_percentage (i : BMInput) : Option ℚ :=
  match visceral_fat_value i, body_fat_percentage i with
  | some vfv, some bfp =>
    some (pyRound 1 (sexIdx (965/1000) (983/1000) i.sex * bfp
      - sexIdx (22/100) (303/1000) i.sex * (vfv : ℚ)))
  | _, _ => none

/-- body_water_percentage: sex-indexed share of fat-free weight net of the
clamped ff1 term, rounded to 1 decimal and clamped to [10, 80]. -/
def body_water_percentage (i : BMInput) : Option ℚ :=
  match i.weight, fat_free_weight i with
  | some w, some ffw =>
    let ff1 : ℚ := max 1 (sexIdx (5/100) (6/100) i.sex * ffw)
    let bwp : ℚ := pyRound 1 (sexIdx (76/100) (73/100) i.sex
      * (ffw - ff1) / w * 100)
    some (max 10 (min 80 bwp))
  | _, _ => none

/-- basal_metabolic_rate: ffw * 21.6 + 370 truncated to an integer and
clamped to [900, 2500]. -/
def basal_metabolic_rate (i : BMInput) : Option ℤ :=
  match fat_free_weight i with
  | none => none
  | some ffw => some (max 900 (min 2500 (pyTrunc (ffw * (216/10) + 370))))

/-- skeletal_muscle_percentage: sex-indexed share of fat-free weight net
of ff1, rounded to 1 decimal. -/
def skeletal_muscle_percentage (i : BMInput) : Option ℚ :=
  match fat_free_weight i, i.weight with
  | some ffw, some w =>
    let ff1 : ℚ := max 1 (sexIdx (5/100) (6/100) i.sex * ffw)
    some (pyRound 1 (sexIdx (68/100) (62/100) i.sex * (ffw - ff1) / w * 100))
  | _, _ => none

/-- muscle_mass: fat-free weight minus the clamped ff term, rounded to 2
decimals. -/
def muscle_mass (i : BMInput) : Option ℚ :=
  match fat_free_weight i with
  | none => none
  | some ffw =>
    let ff : ℚ := max 1 (sexIdx (5/100) (6/100) i.sex * ffw)
    some (pyRound 2 (ffw - ff))

/-- bone_mass: sex-indexed share of fat-free weight rounded to 2 decimals
and floored at 1 kg. -/
def bone_mass (i : BMInput) : Option ℚ :=
  match fat_free_weight i with
  | none => none
  | some ffw => some (max 1 (pyRound 2 (sexIdx (5/100) (6/100) i.sex * ffw)))

/-- protein_percentage: 100 minus fat, bone and water shares, rounded to 1
decimal and floored at 5. -/
def protein_percentage (i : BMInput) : Option ℚ :=
  match body_fat_percentage i, body_water_percentage i, bone_mass i,
      i.weight with
  | some bfp, some bwp, some bm, some w =>
    some (max 5 (pyRound 1 (100 - sexIdx 1 (105/100) i.sex * bfp
      - bm / w * 100 - bwp)))
  | _, _, _, _ => none

/-- The final fallback loop of weight_score: the first x in 0..5 with
res * x / 10 > weight yields x * 10, else 0. -/
def weightScoreLoop (res w : ℚ) : ℤ :=
  if res * 0 / 10 > w then 0
  else if res * 1 / 10 > w then 10
  else if res * 2 / 10 > w then 20
  else if res * 3 / 10 > w then 30
  else if res * 4 / 10 > w then 40
  else if res * 5 / 10 > w then 50
  else 0

/-- weight_score: distance of weight from the sex-indexed reference
weight, in the branch structure of the source. -/
def weight_score (i : BMInput) : Option ℤ :=
  match i.weight with
  | none => none
  | some w =>
    let res : ℚ := sexIdx (7/10) (45/100) i.sex
      * (sexIdx 100 137 i.sex * i.height - sexIdx 80 110 i.sex)
    if res ≤ w then
      if res * (13/10) < w then some 50
      else some (pyTrunc (100 - 50 * (w - res) / ((3/10) * res)))
    else if res * (7/10) < w then
      some (pyTrunc (100 - 50 * (res - w) / ((3/10) * res)))
    else some (weightScoreLoop res w)

/-- fat_score: distance of BFP from the sex-indexed reference value. -/
def fat_score (i : BMInput) : Option ℤ :=
  match body_fat_percentage i with
  | none => none
  | some bfp =>
    let c : ℚ := sexIdx 16 26 i.sex
    if c < bfp then
      if bfp ≥ 45 then some 50
      else some (pyTrunc (100 - 50 * (bfp - c) / (45 - c)))
    else some (pyTrunc (100 - 50 * (c - bfp) / (c - 5)))

/-- bmi_score: banded distance of BMI from 22. -/
def bmi_score (i : BMInput) : Option ℤ :=
  match body_mass_index i with
  | none => none
  | some bmi =>
    if bmi ≥ 22 then
      if bmi ≥ 35 then some 50
      else some (pyTrunc (100 - (385/100) * (bmi - 22)))
    else if bmi ≥ 15 then some (pyTrunc (100 - (385/100) * (22 - bmi)))
    else if bmi ≥ 10 then some 40
    else if bmi ≥ 5 then some 30
    else some 20

/-- health_score: integer mean (floor division by 3) of the three scores. -/
def health_score (i : BMInput) : Option ℤ :=
  match weight_score i, fat_score i, bmi_score i with
  | some ws, some fs, some bs => some (Int.fdiv (ws + fs + bs) 3)
  | _, _, _ => none

/-- The 17-band age adjustment of metabolic_age. -/
def ageAdjustmentFactor (hs : ℤ) : ℤ :=
  if hs < 50 then 0
  else if hs < 60 then 1
  else if hs < 65 then 2
  else if hs < 68 then 3
  else if hs < 70 then 4
  else if hs < 73 then 5
  else if hs < 75 then 6
  else if hs < 80 then 7
  else if hs < 85 then 8
  else if hs < 88 then 9
  else if hs < 90 then 10
  else if hs < 93 then 11
  else if hs < 95 then 12
  else if hs < 97 then 13
  else if hs < 98 then 14
  else if hs < 99 then 15
  else 16

/-- metabolic_age: age + 8 minus the band adjustment, floored at 18. -/
def metabolic_age (i : BMInput) : Option ℤ :=
  match health_score i with
  | none => none
  | some hs => some (max 18 (i.age + 8 - ageAdjustmentFactor hs))

/-- The 16 derived metrics, in the field order of _as_dictionary. -/
structure AllMetrics where
  bodyMassIndex : Option ℚ
  bodyFatPercentage : Option ℚ
  fatFreeWeight : Option ℚ
  subcutaneousFatPercentage : Option ℚ
  visceralFatValue : Option ℤ
  bodyWaterPercentage : Option ℚ
  basalMetabolicRate : Option ℤ
  skeletalMusclePercentage : Option ℚ
  muscleMass : Option ℚ
  boneMass : Option ℚ
  proteinPercentage : Option ℚ
  weightScore : Option ℤ
  fatScore : Option ℤ
  bmiScore : Option ℤ
  healthScore : Option ℤ
  metabolicAge : Option ℤ
deriving DecidableEq, Repr

/-- compute_all / _as_dictionary: force the whole cascade once. -/
def computeAll (i : BMInput) : AllMetrics :=
  { bodyMassIndex := body_mass_index i
    bodyFatPercentage := body_fat_percentage i
    fatFreeWeight := fat_free_weight i
    subcutaneousFatPercentage := subcutaneous_fat_percentage i
    visceralFatValue := visceral_fat_value i
    bodyWaterPercentage := body_water_percentage i
    basalMetabolicRate := basal_metabolic_rate i
    skeletalMusclePercentage := skeletal_muscle_percentage i
    muscleMass := muscle_mass i
    boneMass := bone_mass i
    proteinPercentage := protein_percentage i
    weightScore := weight_score i
    fatScore := fat_score i
    bmiScore := bmi_score i
    healthScore := health_score i
    metabolicAge := metabolic_age i }

/-- The record with every metric absent. -/
def allMetricsNone : AllMetrics :=
  { bodyMassIndex := none, bodyFatPercentage := none, fatFreeWeight := none
    subcutaneousFatPercentage := none, visceralFatValue := none
    bodyWaterPercentage := none, basalMetabolicRate := none
    skeletalMusclePercentage := none, muscleMass := none, boneMass := none
    proteinPercentage := none, weightScore := none, fatScore := none
    bmiScore := none, healthScore := none, metabolicAge := none }

/-- The concrete profile of C7: weight 70 kg, height 1.75 m, age 30,
male, impedance 500. -/
def c7Input : BMInput :=
  { weight := some 70, height := 7/4, age := 30, sex := Sex.Male,
    impedance := some 500 }

/-! ## ConnectionSession (parser.py, EtekcitySmartFitnessScale) -/

/-- ConnectionStatus of parser.py. -/
inductive ConnectionStatus
  | DISCONNECTED
  | CONNECTING
  | CONNECTED
deriving DecidableEq, Repr

/-- The mutable attributes of EtekcitySmartFitnessScale touched by the
advertisement callback. clientSet mirrors self._client being non-None. -/
structure SessionState where
  clientSet : Bool
  connectionStatus : ConnectionStatus
  hwVersion : Option String
  swVersion : Option String
  displayUnit : Option ℕ
  unitUpdateFlag : Bool
  unitUpdateBuff : List ℕ
deriving DecidableEq, Repr

/-- Outcomes chosen by the transport for each fallible operation of one
connection attempt: none on a read means the operation raised. -/
structure Transport where
  connectOk : Bool
  writeOk : Bool
  startNotifyOk : Bool
  readHw : Option String
  readSw : Option String
deriving DecidableEq, Repr

/-- The GATT operations the callback can issue, in issue order. -/
inductive GattOp
  | connectCall
  | writeUnit (buff : List ℕ)
  | subscribeNotify
  | readHwRevision
  | readSwRevision
deriving DecidableEq, Repr

/-- The except handler of the configure block (parser.py lines 394-397):
clear the client and re-arm the unit-update flag; the connection status
is left untouched. -/
def onConfigError (st : SessionState) : SessionState :=
  { st with clientSet := false, unitUpdateFlag := true }

/-- Python truthiness of `not self._hw_version`: no cached revision, or a
cached empty string. -/
def hwVersionMissing (st : SessionState) : Bool :=
  match st.hwVersion with
  | none => true
  | some s => decide (s = "")

/-- The software-revision read ending the configure block. -/
def readSwStep (st : SessionState) (t : Transport) (acts : List GattOp) :
    SessionState × List GattOp :=
  match t.readSw with
  | none => (onConfigError st, acts ++ [GattOp.readSwRevision])
  | some sw => ({ st with swVersion := some sw }, acts ++ [GattOp.readSwRevision])

/-- The configure block run after a successful connect (parser.py lines
362-397): optional unit-change write with bytes 5 and 10 of the command
buffer set, notification subscription, guarded hardware-revision read,
unconditional software-revision read; any failure funnels into
onConfigError. -/
def configurePhase (st : SessionState) (t : Transport) :
    SessionState × List GattOp :=
  let stepA : SessionState × List GattOp × Bool :=
    if st.unitUpdateFlag then
      match st.displayUnit with
      | some u =>
        let buff := (st.unitUpdateBuff.set 5 (43 - u)).set 10 u
        ({ st with unitUpdateBuff := buff }, [GattOp.writeUnit buff], t.writeOk)
      | none => (st, [], true)
    else (st, [], true)
  let st1 := stepA.1
  let acts1 := stepA.2.1
  if ¬ stepA.2.2 then (onConfigError st1, acts1)
  else
    let acts2 := acts1 ++ [GattOp.subscribeNotify]
    if ¬ t.startNotifyOk then (onConfigError st1, acts2)
    else if hwVersionMissing st1 then
      match t.readHw with
      | none => (onConfigError st1, acts2 ++ [GattOp.readHwRevision])
      | some hw =>
        readSwStep { st1 with hwVersion := some hw } t
          (acts2 ++ [GattOp.readHwRevision])
    else readSwStep st1 t acts2

/-- Whether the configure block hits a failure, mirroring the sequential
shortcut order of the source. -/
def configFails (st : SessionState) (t : Transport) : Bool :=
  if st.unitUpdateFlag && st.displayUnit.isSome && !t.writeOk then true
  else if !t.startNotifyOk then true
  else if hwVersionMissing st && t.readHw.isNone then true
  else t.readSw.isNone

/-- _advertisement_callback (parser.py lines 323-397) as one sequential
run: address/status guard, locked re-check with the transition to
CONNECTING, connect attempt, then the configure block. Returns the final
state and the GATT operations issued. -/
def advCallback (st : SessionState) (t : Transport) (addrMatches : Bool) :
    SessionState × List GattOp :=
  if ¬ addrMatches ∨ st.connectionStatus ≠ ConnectionStatus.DISCONNECTED then
    (st, [])
  else
    let st1 := { st with connectionStatus := ConnectionStatus.CONNECTING }
    if t.connectOk then
      let st2 := { st1 with clientSet := true,
                            connectionStatus := ConnectionStatus.CONNECTED }
      let r := configurePhase st2 t
      (r.1, GattOp.connectCall :: r.2)
    else
      ({ st1 with clientSet := false,
                  connectionStatus := ConnectionStatus.DISCONNECTED },
       [GattOp.connectCall])

/-! ## Notification handler and callback-exception flow (C9) -/

/-- The caller's callback as an effect that may raise. -/
def runCallback (cbRaises : Bool) : Except Unit Unit :=
  if cbRaises then Except.error () else Except.ok ()

/-- The delivery tail of _on_detect (adv_reader.py lines 204-207): the
callback runs inside try/except Exception, so no exception escapes. -/
def onDetectDeliverEscapes (cbRaises : Bool) : Bool :=
  match runCallback cbRaises with
  | Except.ok _ => false
  | Except.error _ => false

/-- The exceptions that can escape _notification_handler: the ValueError
of the WeightUnit coercion on an out-of-range display-unit byte, or the
caller's callback raising. -/
inductive HandlerRaise
  | valueError
  | callbackError
deriving DecidableEq, Repr

/-- The WeightUnit IntEnum coercion of parser.py line 299: the members
are KG=0, LB=1, ST=2, and any other argument raises ValueError. -/
def weightUnitOfNat (n : ℕ) : Option ℕ :=
  if n = 0 ∨ n = 1 ∨ n = 2 then some n else none

/-- Callback invocation in _notification_handler (parser.py line 308):
no surrounding handler, so a raise escapes the handler. -/
def notifDeliverEscapes (cbRaises : Bool) : Option HandlerRaise :=
  match runCallback cbRaises with
  | Except.ok _ => none
  | Except.error _ => some HandlerRaise.callbackError

/-- _on_detect including callback delivery: the final component tells
whether an exception escaped the detection callback. -/
def onDetectRun (p : StabParams) (st : StabState) (s : AdvSample)
    (cbRaises : Bool) : StabState × Bool × Option AdvReadingM × Bool :=
  let r := onDetect p st s
  (r.1, r.2.1, r.2.2,
   if (r.2.2).isSome then onDetectDeliverEscapes cbRaises else false)

/-- The attributes of the session touched by _notification_handler. -/
structure NotifState where
  hwVersion : Option String
  swVersion : Option String
  displayUnit : Option ℕ
  unitUpdateFlag : Bool
deriving DecidableEq, Repr

/-- The ScaleData record delivered to the callback. -/
structure ScaleDataM where
  name : String
  address : String
  hwVersion : Option String
  swVersion : Option String
  displayUnit : ℕ
  weight : ℚ
  impedance : Option ℕ
deriving DecidableEq, Repr

/-- _notification_handler (parser.py lines 271-308): decode, build the
ScaleData, coerce the display-unit byte through the WeightUnit enum
(which raises ValueError for bytes outside 0..2 before any session
attribute is mutated and before the callback is invoked), adopt or
re-check the baseline display unit, then invoke the callback with no
exception handler. The final component is the exception escaping the
handler, if any. -/
def notificationHandler (st : NotifState) (cbRaises : Bool)
    (payload : List ℕ) (name address : String) :
    NotifState × Option ScaleDataM × Option HandlerRaise :=
  match parse payload with
  | none => (st, none, none)
  | some data =>
    match weightUnitOfNat data.displayUnit with
    | none => (st, none, some HandlerRaise.valueError)
    | some u =>
      let device : ScaleDataM :=
        { name := name, address := address, hwVersion := st.hwVersion,
          swVersion := st.swVersion, displayUnit := u,
          weight := data.weight, impedance := data.impedance }
      let st1 : NotifState :=
        match st.displayUnit with
        | none => { st with displayUnit := some u,
                            unitUpdateFlag := false }
        | some du => { st with unitUpdateFlag := decide (u ≠ du) }
      (st1, some device, notifDeliverEscapes cbRaises)

/-! ## Concurrent advertisement callbacks (C8) -/

/-- Program counter of one advertisement-callback task: before the outer
status check, awaiting the lock, connect call in flight, finished. -/
inductive TaskPhase
  | ready
  | waiting
  | inflight
  | finished
deriving DecidableEq, Repr

/-- The shared session status plus the phase of each of n concurrent
callback tasks for the matching address. -/
structure ConnSys (n : ℕ) where
  status : ConnectionStatus
  phase : Fin n → TaskPhase

/-- Initial system: Disconnected, every task yet to run. -/
def connInit (n : ℕ) : ConnSys n :=
  { status := ConnectionStatus.DISCONNECTED, phase := fun _ => TaskPhase.ready }

/-- Interleaved small steps of the advertisement callbacks. The
asyncio event loop runs handlers between awaits atomically: the outer
guard, the locked re-check plus transition to CONNECTING, and the
completion of the connect call are each one step. A transport-reported
disconnect of an established connection resets the status. -/
inductive ConnStep {n : ℕ} : ConnSys n → ConnSys n → Prop
  | outerPass (s : ConnSys n) (i : Fin n)
      (hp : s.phase i = TaskPhase.ready)
      (hs : s.status = ConnectionStatus.DISCONNECTED) :
      ConnStep s { status := s.status,
                   phase := Function.update s.phase i TaskPhase.waiting }
  | outerFail (s : ConnSys n) (i : Fin n)
      (hp : s.phase i = TaskPhase.ready)
      (hs : s.status ≠ ConnectionStatus.DISCONNECTED) :
      ConnStep s { status := s.status,
                   phase := Function.update s.phase i TaskPhase.finished }
  | lockEnter (s : ConnSys n) (i : Fin n)
      (hp : s.phase i = TaskPhase.waiting)
      (hs : s.status = ConnectionStatus.DISCONNECTED) :
      ConnStep s { status := ConnectionStatus.CONNECTING,
                   phase := Function.update s.phase i TaskPhase.inflight }
  | lockAbort (s : ConnSys n) (i : Fin n)
      (hp : s.phase i = TaskPhase.waiting)
      (hs : s.status ≠ ConnectionStatus.DISCONNECTED) :
      ConnStep s { status := s.status,
                   phase := Function.update s.phase i TaskPhase.finished }
  | connectSuccess (s : ConnSys n) (i : Fin n)
      (hp : s.phase i = TaskPhase.inflight) :
      ConnStep s { status := ConnectionStatus.CONNECTED,
                   phase := Function.update s.phase i TaskPhase.finished }
  | connectFailure (s : ConnSys n) (i : Fin n)
      (hp : s.phase i = TaskPhase.inflight) :
      ConnStep s { status := ConnectionStatus.DISCONNECTED,
                   phase := Function.update s.phase i TaskPhase.finished }
  | deviceDisconnect (s : ConnSys n)
      (hs : s.status = ConnectionStatus.CONNECTED) :
      ConnStep s { status := ConnectionStatus.DISCONNECTED, phase := s.phase }

/-- Reachability from the initial system by interleaved steps. -/
def connReachable {n : ℕ} (s : ConnSys n) : Prop :=
  Relation.ReflTransGen ConnStep (connInit n) s

/-- At most one connect call in flight. -/
def atMostOneInflight {n : ℕ} (s : ConnSys n) : Prop :=
  ∀ i j : Fin n, s.phase i = TaskPhase.inflight →
    s.phase j = TaskPhase.inflight → i = j

/-- The emission gate as stated by the specification, over the values the
gate reads: stability, last emitted quantized value, last emission time. -/
def emitGateSpec (p : StabParams) (st : StabState) (s : AdvSample)
    (stable : Bool) : Prop :=
  (stable = true ∧
    (st.lastEmitQ s.addr = none
      ∨ ∃ q, st.lastEmitQ s.addr = some q ∧
          (|quantizeWeight s.weight p.weightEpsilonKg - q|
              > p.weightEpsilonKg / 2
            ∨ s.now - (st.lastEmitTs s.addr).getD 0 ≥ p.minEmitIntervalS)))
  ∨ (stable = false ∧ p.emitTransients = true
      ∧ s.now - (st.lastEmitTs s.addr).getD 0 ≥ p.minEmitIntervalS
      ∧ (st.lastEmitQ s.addr = none
          ∨ ∃ q, st.lastEmitQ s.addr = some q ∧
              |quantizeWeight s.weight p.weightEpsilonKg - q| ≥ p.minDeltaKg))

/-- Session in the idle initial configuration with no pending unit change
(for the C3 counterexample). -/
def c3State : SessionState :=
  { clientSet := false, connectionStatus := ConnectionStatus.DISCONNECTED,
    hwVersion := none, swVersion := none, displayUnit := none,
    unitUpdateFlag := false, unitUpdateBuff := List.replicate 11 0 }

/-- Transport where connect succeeds and the notification subscription
fails. -/
def c3Transport : Transport :=
  { connectOk := true, writeOk := true, startNotifyOk := false,
    readHw := some "1.0", readSw := some "2.0" }

/-- Session with a pending unit change to LB (for the C4 counterexample). -/
def c4State : SessionState :=
  { clientSet := false, connectionStatus := ConnectionStatus.DISCONNECTED,
    hwVersion := none, swVersion := none, displayUnit := some 1,
    unitUpdateFlag := true, unitUpdateBuff := List.replicate 11 0 }

/-- Transport where every operation of the connect and configure phase
succeeds. -/
def c4Transport : Transport :=
  { connectOk := true, writeOk := true, startNotifyOk := true,
    readHw := some "1.0", readSw := some "2.0" }

/-- Fresh session attributes as seen by the notification handler. -/
def notifInit : NotifState :=
  { hwVersion := none, swVersion := none, displayUnit := none,
    unitUpdateFlag := false }

/-- The C5 frame with its display-unit byte set to 3, outside the
WeightUnit members. -/
def gattVectorUnit3 : List ℕ :=
  [0xA5, 0x02, 0x00, 0x10, 0x00, 0x00, 0x01, 0x61, 0xA1, 0x00,
   0xE8, 0x03, 0x00, 0x64, 0x00, 0x00, 0x00, 0x00, 0x00, 0x01, 0x01, 0x03]

/-! ## Theorems -/

/-- C5: decodeNotification (parse) returns a parsed sample iff the payload
has length 22, byte 19 is 1, bytes 0..1 are A5 02, bytes 3..4 are 10 00
and bytes 6..9 are 01 61 A1 00; on validity the weight is the
little-endian 24-bit value at offset 10 divided by 1000 rounded to 2
decimals, the display unit is byte 21, and the impedance key is present
exactly when byte 20 is 1 and the little-endian 16-bit value at offset 13
is non-zero; any other byte sequence yields the None sentinel. The C5
test vector yields weight 1.0, impedance 100, display unit 0. -/
theorem C5_decodeNotification :
    (∀ payload : List ℕ,
      ((parse payload).isSome ↔
        payload.length = 22 ∧ payload.getD 19 0 = 1
          ∧ payload.take 2 = [0xA5, 0x02]
          ∧ (payload.drop 3).take 2 = [0x10, 0x00]
          ∧ (payload.drop 6).take 4 = [0x01, 0x61, 0xA1, 0x00])
      ∧ ∀ r, parse payload = some r →
          r.weight = pyRound 2 ((le24 payload 10 : ℚ) / 1000)
          ∧ r.displayUnit = payload.getD 21 0
          ∧ (r.impedance.isSome ↔
              (payload.getD 20 0 = 1 ∧ le16 payload 13 ≠ 0))
          ∧ r.impedance =
              (if payload.getD 20 0 = 1 ∧ le16 payload 13 ≠ 0
                then some (le16 payload 13) else none))
    ∧ parse gattVectorC5 =
        some { displayUnit := 0, weight := 1, impedance := some 100 } := by
  refine ⟨fun payload => ⟨?_, ?_⟩,
    by norm_num [parse, gattVectorC5, le24, le16, pyRound, pyRoundInt]⟩
  · unfold parse
    split_ifs with h
    · simpa using h
    · simpa using h
  · intro r hr
    unfold parse at hr
    split_ifs at hr with h
    · injection hr with hr
      subst hr
      refine ⟨rfl, rfl, ?_, rfl⟩
      by_cases h20 : payload.getD 20 0 = 1 ∧ le16 payload 13 ≠ 0 <;>
        simp [h20]

/-- Witness for C5 at the concrete test vector. -/
theorem C5_decodeNotification_witness :
    ({ displayUnit := 0, weight := 1, impedance := some 100 } :
        GattParsed).weight
      = pyRound 2 ((le24 gattVectorC5 10 : ℚ) / 1000) :=
  ((C5_decodeNotification.1 gattVectorC5).2 _
    (by norm_num [parse, gattVectorC5, le24, le16, pyRound, pyRoundInt])).1

/-- C6: decodeAdvertisement (_parse_mfr_06d0) treats a payload as valid
exactly when its length is 20 and byte 0 is 1; on validity the MAC is
bytes 1..6 reversed in colon-separated upper-case hex, the weight is the
little-endian 24-bit gram value at offset 10, present only when positive,
in kilograms rounded to 3 decimals, and the impedance is the
little-endian 16-bit value at offset 13, present only when non-zero. The
impedance vector yields 66.0 kg and 300 ohm, the zero-impedance vector
yields absent impedance and 0.047 kg. -/
theorem C6_decodeAdvertisement :
    (∀ payload : List ℕ,
      (¬ (payload.length = 20 ∧ payload.getD 0 0 = 1) →
        parseMfr06d0 payload =
          { mac := none, weight := none, impedance := none,
            rawHex := rawHexOf payload })
      ∧ (payload.length = 20 ∧ payload.getD 0 0 = 1 →
          (parseMfr06d0 payload).mac = some (macOfPayload payload)
          ∧ (parseMfr06d0 payload).weight =
              (if 0 < le24 payload 10
                then some (pyRound 3 ((le24 payload 10 : ℚ) / 1000))
                else none)
          ∧ (parseMfr06d0 payload).impedance =
              (if le16 payload 13 ≠ 0 then some (le16 payload 13)
                else none)))
    ∧ (parseMfr06d0 advVectorImp).weight = some 66
    ∧ (parseMfr06d0 advVectorImp).impedance = some 300
    ∧ (parseMfr06d0 advVectorImp).mac = some "AA:BB:CC:DD:EE:FF"
    ∧ (parseMfr06d0 advVectorNoImp).impedance = none
    ∧ (parseMfr06d0 advVectorNoImp).weight = some (47/1000) := by
  refine ⟨fun payload => ⟨?_, ?_⟩,
    by norm_num [parseMfr06d0, advVectorImp, le24, le16, pyRound, pyRoundInt],
    by norm_num [parseMfr06d0, advVectorImp, le16],
    by norm_num [parseMfr06d0, advVectorImp, macOfPayload]; decide,
    by norm_num [parseMfr06d0, advVectorNoImp, le16],
    by norm_num [parseMfr06d0, advVectorNoImp, le24, le16, pyRound,
      pyRoundInt]⟩
  · intro h
    unfold parseMfr06d0
    rw [if_pos (by tauto)]
  · intro h
    unfold parseMfr06d0
    rw [if_neg (by tauto)]
    exact ⟨rfl, rfl, rfl⟩

/-- Witness for C6 at the empty payload. -/
theorem C6_decodeAdvertisement_witness :
    parseMfr06d0 [] =
      { mac := none, weight := none, impedance := none,
        rawHex := rawHexOf [] } :=
  (C6_decodeAdvertisement.1 []).1 (by decide)

/-- C10: body_fat_percentage is absent whenever impedance is absent or
zero, and a present body-fat value certifies a present non-zero
impedance, so the 500/impedance term is never a division by zero and the
metrics cascade is total. -/
theorem C10_bfp_impedance_guard :
    ∀ i : BMInput,
      ((i.impedance = none ∨ i.impedance = some 0) →
        body_fat_percentage i = none)
      ∧ (∀ v, body_fat_percentage i = some v →
          ∃ z, i.impedance = some z ∧ z ≠ 0) := by
  intro i
  constructor
  · intro h
    unfold body_fat_percentage
    rcases h with h | h <;> rw [h] <;> cases hw : i.weight <;> simp
  · intro v hv
    unfold body_fat_percentage at hv
    cases hw : i.weight <;> rw [hw] at hv <;>
      cases hz : i.impedance <;> rw [hz] at hv
    · cases hv
    · cases hv
    · cases hv
    · rename_i z
      refine ⟨z, rfl, ?_⟩
      intro h0
      subst h0
      simp at hv

/-- Witness for C10: absent impedance yields an absent body-fat value. -/
theorem C10_bfp_impedance_guard_witness :
    body_fat_percentage
      { weight := some 70, height := 7/4, age := 30, sex := Sex.Male,
        impedance := none } = none :=
  (C10_bfp_impedance_guard _).1 (Or.inl rfl)

/-! ### Shared lemmas for the metrics cascade -/

/-- BMI is absent without weight. -/
theorem bmiAbsent (i : BMInput) (h : i.weight = none) :
    body_mass_index i = none := by
  unfold body_mass_index
  rw [h]

/-- BFP is absent when a direct dependency is absent. -/
theorem bfpAbsent (i : BMInput)
    (h : i.weight = none ∨ i.impedance = none ∨ body_mass_index i = none) :
    body_fat_percentage i = none := by
  unfold body_fat_percentage
  split
  · split_ifs
    · rfl
    · split <;> simp_all
  · rfl

/-- FFW is absent when a direct dependency is absent. -/
theorem ffwAbsent (i : BMInput)
    (h : i.weight = none ∨ body_fat_percentage i = none) :
    fat_free_weight i = none := by
  unfold fat_free_weight
  split <;> simp_all

/-- VFV is absent when a direct dependency is absent. -/
theorem vfvAbsent (i : BMInput)
    (h : body_mass_index i = none ∨ body_fat_percentage i = none
      ∨ i.weight = none ∨ fat_free_weight i = none) :
    visceral_fat_value i = none := by
  unfold visceral_fat_value
  split <;> simp_all

/-- Subcutaneous fat is absent when a direct dependency is absent. -/
theorem subqAbsent (i : BMInput)
    (h : visceral_fat_value i = none ∨ body_fat_percentage i = none) :
    subcutaneous_fat_percentage i = none := by
  unfold subcutaneous_fat_percentage
  split <;> simp_all

/-- BWP is absent when a direct dependency is absent. -/
theorem bwpAbsent (i : BMInput)
    (h : i.weight = none ∨ fat_free_weight i = none) :
    body_water_percentage i = none := by
  unfold body_water_percentage
  split <;> simp_all

/-- BMR is absent without fat-free weight. -/
theorem bmrAbsent (i : BMInput) (h : fat_free_weight i = none) :
    basal_metabolic_rate i = none := by
  unfold basal_metabolic_rate
  split <;> simp_all

/-- Skeletal muscle percentage is absent when a dependency is absent. -/
theorem smpAbsent (i : BMInput)
    (h : fat_free_weight i = none ∨ i.weight = none) :
    skeletal_muscle_percentage i = none := by
  unfold skeletal_muscle_percentage
  split <;> simp_all

/-- Muscle mass is absent without fat-free weight. -/
theorem mmAbsent (i : BMInput) (h : fat_free_weight i = none) :
    muscle_mass i = none := by
  unfold muscle_mass
  split <;> simp_all

/-- Bone mass is absent without fat-free weight. -/
theorem boneAbsent (i : BMInput) (h : fat_free_weight i = none) :
    bone_mass i = none := by
  unfold bone_mass
  split <;> simp_all

/-- Protein percentage is absent when a direct dependency is absent. -/
theorem protAbsent (i : BMInput)
    (h : body_fat_percentage i = none ∨ body_water_percentage i = none
      ∨ bone_mass i = none ∨ i.weight = none) :
    protein_percentage i = none := by
  unfold protein_percentage
  split <;> simp_all

/-- Weight score is absent without weight. -/
theorem wsAbsent (i : BMInput) (h : i.weight = none) :
    weight_score i = none := by
  unfold weight_score
  split <;> simp_all

/-- Fat score is absent without BFP. -/
theorem fsAbsent (i : BMInput) (h : body_fat_percentage i = none) :
    fat_score i = none := by
  unfold fat_score
  split <;> simp_all

/-- BMI score is absent without BMI. -/
theorem bsAbsent (i : BMInput) (h : body_mass_index i = none) :
    bmi_score i = none := by
  unfold bmi_score
  split <;> simp_all

/-- Health score is absent when a component score is absent. -/
theorem hsAbsent (i : BMInput)
    (h : weight_score i = none ∨ fat_score i = none ∨ bmi_score i = none) :
    health_score i = none := by
  unfold health_score
  split <;> simp_all

/-- Metabolic age is absent without the health score. -/
theorem maAbsent (i : BMInput) (h : health_score i = none) :
    metabolic_age i = none := by
  unfold metabolic_age
  split <;> simp_all

/-- BMI at the C7 profile. -/
theorem c7_bmi : body_mass_index c7Input = some (457/20) := by
  norm_num [body_mass_index, c7Input]

/-- BFP at the C7 profile. -/
theorem c7_bfp : body_fat_percentage c7Input = some (149/10) := by
  unfold body_fat_percentage
  rw [c7_bmi]
  norm_num [c7Input, sexIdx, max_def, min_def]

/-- FFW at the C7 profile. -/
theorem c7_ffw : fat_free_weight c7Input = some (5957/100) := by
  unfold fat_free_weight
  rw [c7_bfp]
  norm_num [c7Input, pyRound, pyRoundInt]

/-- VFV at the C7 profile. -/
theorem c7_vfv : visceral_fat_value c7Input = some 5 := by
  unfold visceral_fat_value
  rw [c7_bmi, c7_bfp, c7_ffw]
  norm_num [c7Input, sexIdx, pyTrunc, max_def, min_def]

/-- Subcutaneous fat at the C7 profile. -/
theorem c7_subq : subcutaneous_fat_percentage c7Input = some (133/10) := by
  unfold subcutaneous_fat_percentage
  rw [c7_vfv, c7_bfp]
  norm_num [c7Input, sexIdx, pyRound, pyRoundInt]

/-- BWP at the C7 profile. -/
theorem c7_bwp : body_water_percentage c7Input = some (307/5) := by
  unfold body_water_percentage
  rw [c7_ffw]
  norm_num [c7Input, sexIdx, pyRound, pyRoundInt, max_def, min_def]

/-- BMR at the C7 profile. -/
theorem c7_bmr : basal_metabolic_rate c7Input = some 1656 := by
  unfold basal_metabolic_rate
  rw [c7_ffw]
  norm_num [c7Input, pyTrunc, max_def, min_def]

/-- Skeletal muscle percentage at the C7 profile. -/
theorem c7_smp : skeletal_muscle_percentage c7Input = some 55 := by
  unfold skeletal_muscle_percentage
  rw [c7_ffw]
  norm_num [c7Input, sexIdx, pyRound, pyRoundInt, max_def, min_def]

/-- Muscle mass at the C7 profile. -/
theorem c7_mm : muscle_mass c7Input = some (5659/100) := by
  unfold muscle_mass
  rw [c7_ffw]
  norm_num [c7Input, sexIdx, pyRound, pyRoundInt, max_def, min_def]

/-- Bone mass at the C7 profile. -/
theorem c7_bone : bone_mass c7Input = some (149/50) := by
  unfold bone_mass
  rw [c7_ffw]
  norm_num [c7Input, sexIdx, pyRound, pyRoundInt, max_def, min_def]

/-- Protein percentage at the C7 profile. -/
theorem c7_prot : protein_percentage c7Input = some (97/5) := by
  unfold protein_percentage
  rw [c7_bfp, c7_bwp, c7_bone]
  norm_num [c7Input, sexIdx, pyRound, pyRoundInt, max_def, min_def]

/-- Weight score at the C7 profile. -/
theorem c7_ws : weight_score c7Input = some 91 := by
  unfold weight_score
  norm_num [c7Input, sexIdx, pyTrunc, weightScoreLoop]

/-- Fat score at the C7 profile. -/
theorem c7_fs : fat_score c7Input = some 95 := by
  unfold fat_score
  rw [c7_bfp]
  norm_num [c7Input, sexIdx, pyTrunc]

/-- BMI score at the C7 profile. -/
theorem c7_bs : bmi_score c7Input = some 96 := by
  unfold bmi_score
  rw [c7_bmi]
  norm_num [c7Input, pyTrunc]

/-- Health score at the C7 profile. -/
theorem c7_hs : health_score c7Input = some 94 := by
  unfold health_score
  rw [c7_ws, c7_fs, c7_bs]
  norm_num [Int.fdiv]

/-- Metabolic age at the C7 profile. -/
theorem c7_ma : metabolic_age c7Input = some 26 := by
  unfold metabolic_age
  rw [c7_hs]
  norm_num [c7Input, ageAdjustmentFactor, max_def]

/-- C7: every derived metric is absent whenever any of its direct
dependencies is absent (in particular, with weight absent every derived
metric is absent), every present metric respects its documented clamp
range (BFP in 5..75, VFV integer in 1..30, BMR in 900..2500, bone mass at
least 1 kg, protein at least 5, metabolic age at least 18), and for the
profile weight 70 kg, height 1.75 m, age 30, male, impedance 500 all 16
metrics are present with the computed in-range values. -/
theorem C7_metrics_cascade :
    (∀ i : BMInput, i.weight = none → computeAll i = allMetricsNone)
    ∧ (∀ i v, body_fat_percentage i = some v → 5 ≤ v ∧ v ≤ 75)
    ∧ (∀ i v, visceral_fat_value i = some v → 1 ≤ v ∧ v ≤ 30)
    ∧ (∀ i v, basal_metabolic_rate i = some v → 900 ≤ v ∧ v ≤ 2500)
    ∧ (∀ i v, bone_mass i = some v → 1 ≤ v)
    ∧ (∀ i v, protein_percentage i = some v → 5 ≤ v)
    ∧ (∀ i v, metabolic_age i = some v → 18 ≤ v)
    ∧ (∀ i : BMInput,
        (i.weight = none → body_mass_index i = none)
        ∧ ((i.weight = none ∨ i.impedance = none ∨ body_mass_index i = none)
            → body_fat_percentage i = none)
        ∧ ((i.weight = none ∨ body_fat_percentage i = none)
            → fat_free_weight i = none)
        ∧ ((body_mass_index i = none ∨ body_fat_percentage i = none
              ∨ i.weight = none ∨ fat_free_weight i = none)
            → visceral_fat_value i = none)
        ∧ ((visceral_fat_value i = none ∨ body_fat_percentage i = none)
            → subcutaneous_fat_percentage i = none)
        ∧ ((i.weight = none ∨ fat_free_weight i = none)
            → body_water_percentage i = none)
        ∧ (fat_free_weight i = none → basal_metabolic_rate i = none)
        ∧ ((fat_free_weight i = none ∨ i.weight = none)
            → skeletal_muscle_percentage i = none)
        ∧ (fat_free_weight i = none → muscle_mass i = none)
        ∧ (fat_free_weight i = none → bone_mass i = none)
        ∧ ((body_fat_percentage i = none ∨ body_water_percentage i = none
              ∨ bone_mass i = none ∨ i.weight = none)
            → protein_percentage i = none)
        ∧ (i.weight = none → weight_score i = none)
        ∧ (body_fat_percentage i = none → fat_score i = none)
        ∧ (body_mass_index i = none → bmi_score i = none)
        ∧ ((weight_score i = none ∨ fat_score i = none ∨ bmi_score i = none)
            → health_score i = none)
        ∧ (health_score i = none → metabolic_age i = none))
    ∧ computeAll c7Input =
        { bodyMassIndex := some (457/20), bodyFatPercentage := some (149/10)
          fatFreeWeight := some (5957/100)
          subcutaneousFatPercentage := some (133/10)
          visceralFatValue := some 5, bodyWaterPercentage := some (307/5)
          basalMetabolicRate := some 1656
          skeletalMusclePercentage := some 55, muscleMass := some (5659/100)
          boneMass := some (149/50), proteinPercentage := some (97/5)
          weightScore := some 91, fatScore := some 95, bmiScore := some 96
          healthScore := some 94, metabolicAge := some 26 } := by
  refine ⟨?_, ?_, ?_, ?_, ?_, ?_, ?_, ?_, ?_⟩
  · intro i h
    have h1 := bmiAbsent i h
    have h2 := bfpAbsent i (Or.inl h)
    have h3 := ffwAbsent i (Or.inl h)
    have h4 := vfvAbsent i (Or.inr (Or.inr (Or.inl h)))
    have h5 := subqAbsent i (Or.inl h4)
    have h6 := bwpAbsent i (Or.inl h)
    have h7 := bmrAbsent i h3
    have h8 := smpAbsent i (Or.inr h)
    have h9 := mmAbsent i h3
    have h10 := boneAbsent i h3
    have h11 := protAbsent i (Or.inl h2)
    have h12 := wsAbsent i h
    have h13 := fsAbsent i h2
    have h14 := bsAbsent i h1
    have h15 := hsAbsent i (Or.inl h12)
    have h16 := maAbsent i h15
    simp [computeAll, allMetricsNone, h1, h2, h3, h4, h5, h6, h7, h8, h9,
      h10, h11, h12, h13, h14, h15, h16]
  · intro i v hv
    unfold body_fat_percentage at hv
    split at hv
    · split_ifs at hv
      split at hv
      · cases hv
      · injection hv with hv
        subst hv
        exact ⟨le_max_left _ _, max_le (by norm_num) (min_le_left _ _)⟩
    · cases hv
  · intro i v hv
    unfold visceral_fat_value at hv
    split at hv
    · injection hv with hv
      subst hv
      exact ⟨le_max_left _ _, max_le (by norm_num) (min_le_left _ _)⟩
    · cases hv
  · intro i v hv
    unfold basal_metabolic_rate at hv
    split at hv
    · cases hv
    · injection hv with hv
      subst hv
      exact ⟨le_max_left _ _, max_le (by norm_num) (min_le_left _ _)⟩
  · intro i v hv
    unfold bone_mass at hv
    split at hv
    · cases hv
    · injection hv with hv
      subst hv
      exact le_max_left _ _
  · intro i v hv
    unfold protein_percentage at hv
    split at hv
    · injection hv with hv
      subst hv
      exact le_max_left _ _
    · cases hv
  · intro i v hv
    unfold metabolic_age at hv
    split at hv
    · cases hv
    · injection hv with hv
      subst hv
      exact le_max_left _ _
  · intro i
    exact ⟨bmiAbsent i, bfpAbsent i, ffwAbsent i, vfvAbsent i, subqAbsent i,
      bwpAbsent i, bmrAbsent i, smpAbsent i, mmAbsent i, boneAbsent i,
      protAbsent i, wsAbsent i, fsAbsent i, bsAbsent i, hsAbsent i,
      maAbsent i⟩
  · simp [computeAll, c7_bmi, c7_bfp, c7_ffw, c7_vfv, c7_subq, c7_bwp,
      c7_bmr, c7_smp, c7_mm, c7_bone, c7_prot, c7_ws, c7_fs, c7_bs, c7_hs,
      c7_ma]

/-- Witness for C7: the clamp interval at the concrete profile. -/
theorem C7_metrics_cascade_witness :
    5 ≤ (149/10 : ℚ) ∧ (149/10 : ℚ) ≤ 75 :=
  C7_metrics_cascade.2.1 c7Input (149/10) c7_bfp

/-! ### Shared lemmas for the connection session -/

/-- Summary of the configure block: the connection status is never
touched; a failing configure re-arms the unit flag and clears the client;
a clean configure leaves flag and client untouched and stores the
software revision. -/
theorem configurePhase_spec (st : SessionState) (t : Transport) :
    (configurePhase st t).1.connectionStatus = st.connectionStatus
    ∧ (configFails st t = true →
        (configurePhase st t).1.unitUpdateFlag = true
        ∧ (configurePhase st t).1.clientSet = false)
    ∧ (configFails st t = false →
        (configurePhase st t).1.unitUpdateFlag = st.unitUpdateFlag
        ∧ (configurePhase st t).1.clientSet = st.clientSet
        ∧ (configurePhase st t).1.swVersion = t.readSw) := by
  unfold configurePhase configFails readSwStep onConfigError hwVersionMissing
  cases hf : st.unitUpdateFlag <;> cases hd : st.displayUnit <;>
    cases hh : t.readHw <;> cases hs : t.readSw <;>
      cases hv : st.hwVersion <;> cases hw : t.writeOk <;>
        cases hn : t.startNotifyOk <;> simp_all <;> split_ifs <;> simp_all

/-- The advertisement callback on a matching address from Disconnected
with a successful connect delegates to the configure block. -/
theorem advCallback_success (st : SessionState) (t : Transport)
    (hd : st.connectionStatus = ConnectionStatus.DISCONNECTED)
    (hc : t.connectOk = true) :
    advCallback st t true =
      ((configurePhase
          { st with clientSet := true,
                    connectionStatus := ConnectionStatus.CONNECTED } t).1,
       GattOp.connectCall ::
         (configurePhase
           { st with clientSet := true,
                     connectionStatus := ConnectionStatus.CONNECTED } t).2) := by
  unfold advCallback
  rw [hd]
  simp [hc]

/-- The advertisement callback when the connect attempt itself fails:
back to Disconnected, client cleared, flag untouched. -/
theorem advCallback_connectFail (st : SessionState) (t : Transport)
    (hd : st.connectionStatus = ConnectionStatus.DISCONNECTED)
    (hc : t.connectOk = false) :
    advCallback st t true =
      ({ st with clientSet := false,
                 connectionStatus := ConnectionStatus.DISCONNECTED },
       [GattOp.connectCall]) := by
  unfold advCallback
  rw [hd]
  simp [hc]

/-- hwVersionMissing only reads the cached hardware revision. -/
theorem hwVersionMissing_congr (s2 st : SessionState)
    (h : s2.hwVersion = st.hwVersion) :
    hwVersionMissing s2 = hwVersionMissing st := by
  unfold hwVersionMissing
  rw [h]

/-- The configure block when every transport operation succeeds and a
unit change is pending with a known desired unit. -/
theorem configurePhase_success_write (st : SessionState) (t : Transport)
    (u : ℕ) (hwv swv : String)
    (hflag : st.unitUpdateFlag = true) (hdisp : st.displayUnit = some u)
    (hw : t.writeOk = true) (hn : t.startNotifyOk = true)
    (hh : t.readHw = some hwv) (hs : t.readSw = some swv) :
    configurePhase st t =
      ({ st with
          unitUpdateBuff := (st.unitUpdateBuff.set 5 (43 - u)).set 10 u,
          hwVersion :=
            if hwVersionMissing st then some hwv else st.hwVersion,
          swVersion := some swv },
       [GattOp.writeUnit ((st.unitUpdateBuff.set 5 (43 - u)).set 10 u),
        GattOp.subscribeNotify]
       ++ (if hwVersionMissing st then [GattOp.readHwRevision] else [])
       ++ [GattOp.readSwRevision]) := by
  unfold configurePhase readSwStep
  rw [hflag, hdisp]
  simp only [hw, hn, hh, hs]
  cases hmiss : hwVersionMissing st <;> simp [hmiss] <;>
    first
      | exact hflag
      | exact (hwVersionMissing_congr _ st rfl).trans hmiss

/-- The configure block when every transport operation succeeds and no
write is attempted (no pending change, or no desired unit known). -/
theorem configurePhase_success_nowrite (st : SessionState) (t : Transport)
    (hwv swv : String)
    (hno : st.unitUpdateFlag = false ∨ st.displayUnit = none)
    (hn : t.startNotifyOk = true)
    (hh : t.readHw = some hwv) (hs : t.readSw = some swv) :
    configurePhase st t =
      ({ st with
          hwVersion :=
            if hwVersionMissing st then some hwv else st.hwVersion,
          swVersion := some swv },
       [GattOp.subscribeNotify]
       ++ (if hwVersionMissing st then [GattOp.readHwRevision] else [])
       ++ [GattOp.readSwRevision]) := by
  unfold configurePhase readSwStep
  rcases hno with hflag | hdisp
  · rw [hflag]
    simp only [hn, hh, hs]
    cases hmiss : hwVersionMissing st <;> simp [hmiss] <;>
      first
        | exact hflag
        | exact (hwVersionMissing_congr _ st rfl).trans hmiss
  · rw [hdisp]
    simp only [hn, hh, hs]
    cases hmiss : hwVersionMissing st <;> cases hflag : st.unitUpdateFlag <;>
      simp [hmiss, hflag] <;>
        first
          | exact hdisp
          | exact (hwVersionMissing_congr _ st rfl).trans hmiss

/-- Field summary of the session state after a clean configure. -/
theorem configurePhase_success_state (st : SessionState) (t : Transport)
    (hwv swv : String)
    (hw : t.writeOk = true) (hn : t.startNotifyOk = true)
    (hh : t.readHw = some hwv) (hs : t.readSw = some swv) :
    (configurePhase st t).1.hwVersion
        = (if hwVersionMissing st then some hwv else st.hwVersion)
    ∧ (configurePhase st t).1.swVersion = some swv
    ∧ (configurePhase st t).1.unitUpdateFlag = st.unitUpdateFlag
    ∧ (configurePhase st t).1.connectionStatus = st.connectionStatus
    ∧ (configurePhase st t).1.clientSet = st.clientSet := by
  cases hflag : st.unitUpdateFlag
  · rw [configurePhase_success_nowrite st t hwv swv (Or.inl hflag) hn hh hs]
    refine ⟨?_, ?_, ?_, ?_, ?_⟩ <;> first | rfl | exact hflag
  · cases hdisp : st.displayUnit
    · rw [configurePhase_success_nowrite st t hwv swv (Or.inr hdisp) hn hh hs]
      refine ⟨?_, ?_, ?_, ?_, ?_⟩ <;> first | rfl | exact hflag
    · rename_i u2
      rw [configurePhase_success_write st t u2 hwv swv hflag hdisp hw hn hh hs]
      refine ⟨?_, ?_, ?_, ?_, ?_⟩ <;> first | rfl | exact hflag


/-- C3 counterexample: connect succeeds, the notification subscription
fails; the configure failure is hit, yet the connection status stays
CONNECTED instead of reverting to Disconnected, refuting the claim that
every connect-or-configure failure reverts the state to Disconnected. -/
theorem C3_failure_revert_counterexample :
    configFails c3State c3Transport = true
    ∧ (advCallback c3State c3Transport true).1.connectionStatus
        = ConnectionStatus.CONNECTED := by decide

/-- C3 (amended): a failure of the connect call itself reverts the state
to Disconnected and clears the client but leaves the pending unit-change
flag unchanged; a failure inside the configure block (write, subscribe,
or revision read) re-arms the flag and clears the client but leaves the
connection status at CONNECTED; a clean configure preserves the flag. -/
theorem C3_failure_handling_amended :
    ∀ (st : SessionState) (t : Transport),
      st.connectionStatus = ConnectionStatus.DISCONNECTED →
      (t.connectOk = false →
        (advCallback st t true).1.connectionStatus
            = ConnectionStatus.DISCONNECTED
        ∧ (advCallback st t true).1.unitUpdateFlag = st.unitUpdateFlag
        ∧ (advCallback st t true).1.clientSet = false
        ∧ (advCallback st t true).2 = [GattOp.connectCall])
      ∧ (t.connectOk = true → configFails st t = true →
        (advCallback st t true).1.connectionStatus = ConnectionStatus.CONNECTED
        ∧ (advCallback st t true).1.unitUpdateFlag = true
        ∧ (advCallback st t true).1.clientSet = false)
      ∧ (t.connectOk = true → configFails st t = false →
        (advCallback st t true).1.connectionStatus = ConnectionStatus.CONNECTED
        ∧ (advCallback st t true).1.unitUpdateFlag = st.unitUpdateFlag
        ∧ (advCallback st t true).1.clientSet = true) := by
  intro st t hd
  refine ⟨?_, ?_, ?_⟩
  · intro hc
    rw [advCallback_connectFail st t hd hc]
    exact ⟨rfl, rfl, rfl, rfl⟩
  · intro hc hf
    rw [advCallback_success st t hd hc]
    have key := configurePhase_spec
      { st with clientSet := true,
                connectionStatus := ConnectionStatus.CONNECTED } t
    have hf2 : configFails
        { st with clientSet := true,
                  connectionStatus := ConnectionStatus.CONNECTED } t
          = true := hf
    exact ⟨key.1, (key.2.1 hf2).1, (key.2.1 hf2).2⟩
  · intro hc hf
    rw [advCallback_success st t hd hc]
    have key := configurePhase_spec
      { st with clientSet := true,
                connectionStatus := ConnectionStatus.CONNECTED } t
    have hf2 : configFails
        { st with clientSet := true,
                  connectionStatus := ConnectionStatus.CONNECTED } t
          = false := hf
    exact ⟨key.1, (key.2.2 hf2).1, (key.2.2 hf2).2.1⟩


/-- Witness for the amended C3 at a concrete failing connect. -/
theorem C3_failure_handling_amended_witness :
    (advCallback c3State
      { connectOk := false, writeOk := true, startNotifyOk := true,
        readHw := some "1.0", readSw := some "2.0" } true).1.connectionStatus
      = ConnectionStatus.DISCONNECTED :=
  ((C3_failure_handling_amended c3State _ rfl).1 rfl).1

/-- C4 counterexample: with a pending unit change and every operation
succeeding, the write is issued with bytes 5 and 10 set, yet the pending
flag is still true afterwards, refuting the claim that the flag is
cleared optimistically after the write. -/
theorem C4_optimistic_clear_counterexample :
    (advCallback c4State c4Transport true).2 =
      [GattOp.connectCall,
       GattOp.writeUnit [0, 0, 0, 0, 0, 42, 0, 0, 0, 0, 1],
       GattOp.subscribeNotify, GattOp.readHwRevision, GattOp.readSwRevision]
    ∧ c4Transport.writeOk = true
    ∧ (advCallback c4State c4Transport true).1.unitUpdateFlag = true := by
  decide

/-- C4 (amended): on a successful connect with every operation
succeeding, the callback issues connect, then (iff a unit change is
pending and a desired unit is known) the write of the command buffer with
byte 5 set to 43 minus the unit and byte 10 set to the unit, then the
subscription, then the hardware-revision read exactly when no non-empty
revision is cached, then the software-revision read; the pending flag is
left unchanged (not cleared), the cached hardware revision is reused, and
the software revision is stored anew. -/
theorem C4_connect_sequence_amended :
    ∀ (st : SessionState) (t : Transport) (u : ℕ) (hwv swv : String),
      st.connectionStatus = ConnectionStatus.DISCONNECTED →
      t.connectOk = true → t.writeOk = true → t.startNotifyOk = true →
      t.readHw = some hwv → t.readSw = some swv →
      (st.unitUpdateFlag = true → st.displayUnit = some u →
        (advCallback st t true).2 =
          [GattOp.connectCall,
           GattOp.writeUnit ((st.unitUpdateBuff.set 5 (43 - u)).set 10 u),
           GattOp.subscribeNotify]
          ++ (if hwVersionMissing st then [GattOp.readHwRevision] else [])
          ++ [GattOp.readSwRevision]
        ∧ (10 < st.unitUpdateBuff.length →
            (advCallback st t true).1.unitUpdateBuff.getD 5 0 = 43 - u
            ∧ (advCallback st t true).1.unitUpdateBuff.getD 10 0 = u)
        ∧ (advCallback st t true).1.unitUpdateFlag = true)
      ∧ (st.unitUpdateFlag = false →
          (advCallback st t true).2 =
            [GattOp.connectCall, GattOp.subscribeNotify]
            ++ (if hwVersionMissing st then [GattOp.readHwRevision] else [])
            ++ [GattOp.readSwRevision])
      ∧ (advCallback st t true).1.unitUpdateFlag = st.unitUpdateFlag
      ∧ (hwVersionMissing st = false →
          (advCallback st t true).1.hwVersion = st.hwVersion)
      ∧ (hwVersionMissing st = true →
          (advCallback st t true).1.hwVersion = some hwv)
      ∧ (advCallback st t true).1.swVersion = some swv := by
  intro st t u hwv swv hd hc hw hn hh hs
  rw [advCallback_success st t hd hc]
  have hmm2 : hwVersionMissing
      { st with clientSet := true,
                connectionStatus := ConnectionStatus.CONNECTED }
        = hwVersionMissing st := rfl
  have key := configurePhase_success_state
    { st with clientSet := true,
              connectionStatus := ConnectionStatus.CONNECTED } t hwv swv
    hw hn hh hs
  rw [hmm2] at key
  refine ⟨?_, ?_, key.2.2.1, ?_, ?_, key.2.1⟩
  · intro hflag hdisp
    have hcfg := configurePhase_success_write
      { st with clientSet := true,
                connectionStatus := ConnectionStatus.CONNECTED } t u hwv swv
      hflag hdisp hw hn hh hs
    rw [hcfg]
    refine ⟨by simp [hmm2], ?_, hflag⟩
    intro hlen
    have h5 : 5 < st.unitUpdateBuff.length := by omega
    constructor
    · simp [List.getD_eq_getElem?_getD, List.getElem?_set, List.length_set,
        h5, hlen]
    · simp [List.getD_eq_getElem?_getD, List.getElem?_set, List.length_set,
        hlen]
  · intro hflag
    have hcfg := configurePhase_success_nowrite
      { st with clientSet := true,
                connectionStatus := ConnectionStatus.CONNECTED } t hwv swv
      (Or.inl hflag) hn hh hs
    rw [hcfg]
    simp [hmm2]
  · intro hmiss
    rw [key.1, hmiss]
    simp
  · intro hmiss
    rw [key.1, hmiss]
    simp

/-- Witness for the amended C4 at the concrete pending-unit session. -/
theorem C4_connect_sequence_amended_witness :
    (advCallback c4State c4Transport true).1.swVersion = some "2.0" :=
  (C4_connect_sequence_amended c4State c4Transport 1 "1.0" "2.0"
    rfl rfl rfl rfl rfl rfl).2.2.2.2.2

/-- C9 counterexample: on a valid frame with a raising callback, the GATT
notification handler lets the callback exception escape (there is no
surrounding handler in _notification_handler), refuting the claim that
the emitting component catches callback exceptions on the GATT path as
well. -/
theorem C9_callback_exception_counterexample :
    (parse gattVectorC5).isSome = true
    ∧ (notificationHandler notifInit true gattVectorC5
        "Test Scale" "00:11:22:33:44:55").2.2
        = some HandlerRaise.callbackError := by
  constructor
  · decide
  · decide

/-- C9 (amended): the advertisement listener wraps the reading callback
in a catch-all handler, so no exception ever escapes _on_detect; the
GATT notification handler has no handler: on a rejected frame nothing is
delivered and nothing escapes; on an accepted frame whose display-unit
byte is a WeightUnit member, the reading is delivered and a callback
exception escapes exactly when the callback raises; on an accepted frame
whose display-unit byte is outside 0..2, the WeightUnit coercion raises
ValueError before the callback runs, so the handler's own exception
escapes and the callback is never invoked. -/
theorem C9_callback_exception_amended :
    (∀ (p : StabParams) (st : StabState) (s : AdvSample) (b : Bool),
      (onDetectRun p st s b).2.2.2 = false)
    ∧ (∀ (st : NotifState) (payload : List ℕ) (nm ad : String) (b : Bool),
        parse payload = none →
        (notificationHandler st b payload nm ad).2.2 = none
        ∧ (notificationHandler st b payload nm ad).2.1 = none)
    ∧ (∀ (st : NotifState) (payload : List ℕ) (nm ad : String) (b : Bool)
        (r : GattParsed), parse payload = some r →
        ((weightUnitOfNat r.displayUnit).isSome = true →
          (notificationHandler st b payload nm ad).2.2
            = (if b then some HandlerRaise.callbackError else none)
          ∧ (notificationHandler st b payload nm ad).2.1.isSome = true)
        ∧ (weightUnitOfNat r.displayUnit = none →
          (notificationHandler st b payload nm ad).2.2
            = some HandlerRaise.valueError
          ∧ (notificationHandler st b payload nm ad).2.1 = none)) := by
  refine ⟨?_, ?_, ?_⟩
  · intro p st s b
    unfold onDetectRun onDetectDeliverEscapes runCallback
    cases b <;> simp
  · intro st payload nm ad b hp
    simp [notificationHandler, hp]
  · intro st payload nm ad b r hr
    constructor
    · intro hu
      rcases hu2 : weightUnitOfNat r.displayUnit with _ | u
      · rw [hu2] at hu
        cases hu
      · constructor
        · simp [notificationHandler, hr, hu2, notifDeliverEscapes,
            runCallback]
          cases b <;> simp
        · simp [notificationHandler, hr, hu2]
    · intro hu
      exact ⟨by simp [notificationHandler, hr, hu],
        by simp [notificationHandler, hr, hu]⟩

/-- Witness for the amended C9: an accepted frame with display-unit byte
3 makes the handler raise with a non-raising callback, and nothing is
delivered. -/
theorem C9_callback_exception_amended_witness :
    (notificationHandler notifInit false gattVectorUnit3
        "Test Scale" "00:11:22:33:44:55").2.2
      = some HandlerRaise.valueError
    ∧ (notificationHandler notifInit false gattVectorUnit3
        "Test Scale" "00:11:22:33:44:55").2.1 = none :=
  (C9_callback_exception_amended.2.2 notifInit gattVectorUnit3
      "Test Scale" "00:11:22:33:44:55" false
      { displayUnit := 3, weight := 1, impedance := some 100 }
      (by norm_num [parse, gattVectorUnit3, le24, le16, pyRound,
        pyRoundInt])).2 (by decide)

/-! ### Shared lemmas for the concurrency model -/

/-- Case analysis for a phase update hitting the in-flight phase. -/
theorem update_inflight_elim {n : ℕ} (f : Fin n → TaskPhase) (i : Fin n)
    (v : TaskPhase) (j : Fin n)
    (h : Function.update f i v j = TaskPhase.inflight) :
    (j = i ∧ v = TaskPhase.inflight)
    ∨ (j ≠ i ∧ f j = TaskPhase.inflight) := by
  by_cases hji : j = i
  · subst hji
    rw [Function.update_same] at h
    exact Or.inl ⟨rfl, h⟩
  · rw [Function.update_noteq hji] at h
    exact Or.inr ⟨hji, h⟩

/-- One interleaved step preserves the single-inflight invariant. -/
theorem connStep_inv {n : ℕ} (s s2 : ConnSys n) (h : ConnStep s s2)
    (h1 : atMostOneInflight s)
    (h2 : s.status ≠ ConnectionStatus.CONNECTING →
      ∀ i, s.phase i ≠ TaskPhase.inflight) :
    atMostOneInflight s2
    ∧ (s2.status ≠ ConnectionStatus.CONNECTING →
        ∀ i, s2.phase i ≠ TaskPhase.inflight) := by
  cases h with
  | outerPass i hp hs =>
    constructor
    · intro j k hj hk
      rcases update_inflight_elim _ _ _ _ hj with ⟨_, hv⟩ | ⟨_, hj2⟩
      · cases hv
      rcases update_inflight_elim _ _ _ _ hk with ⟨_, hv⟩ | ⟨_, hk2⟩
      · cases hv
      exact h1 j k hj2 hk2
    · intro hst j hj
      rcases update_inflight_elim _ _ _ _ hj with ⟨_, hv⟩ | ⟨_, hj2⟩
      · cases hv
      · exact h2 hst j hj2
  | outerFail i hp hs =>
    constructor
    · intro j k hj hk
      rcases update_inflight_elim _ _ _ _ hj with ⟨_, hv⟩ | ⟨_, hj2⟩
      · cases hv
      rcases update_inflight_elim _ _ _ _ hk with ⟨_, hv⟩ | ⟨_, hk2⟩
      · cases hv
      exact h1 j k hj2 hk2
    · intro hst j hj
      rcases update_inflight_elim _ _ _ _ hj with ⟨_, hv⟩ | ⟨_, hj2⟩
      · cases hv
      · exact h2 hst j hj2
  | lockEnter i hp hs =>
    have hnone : ∀ j, s.phase j ≠ TaskPhase.inflight := by
      refine h2 ?_
      rw [hs]
      intro hcon
      cases hcon
    constructor
    · intro j k hj hk
      rcases update_inflight_elim _ _ _ _ hj with ⟨hji, _⟩ | ⟨_, hj2⟩
      · rcases update_inflight_elim _ _ _ _ hk with ⟨hki, _⟩ | ⟨_, hk2⟩
        · rw [hji, hki]
        · exact absurd hk2 (hnone k)
      · exact absurd hj2 (hnone j)
    · intro hst
      exact absurd rfl hst
  | lockAbort i hp hs =>
    constructor
    · intro j k hj hk
      rcases update_inflight_elim _ _ _ _ hj with ⟨_, hv⟩ | ⟨_, hj2⟩
      · cases hv
      rcases update_inflight_elim _ _ _ _ hk with ⟨_, hv⟩ | ⟨_, hk2⟩
      · cases hv
      exact h1 j k hj2 hk2
    · intro hst j hj
      rcases update_inflight_elim _ _ _ _ hj with ⟨_, hv⟩ | ⟨_, hj2⟩
      · cases hv
      · exact h2 hst j hj2
  | connectSuccess i hp =>
    have hnone : ∀ j, Function.update s.phase i TaskPhase.finished j
        ≠ TaskPhase.inflight := by
      intro j hj
      rcases update_inflight_elim _ _ _ _ hj with ⟨_, hv⟩ | ⟨hji, hj2⟩
      · cases hv
      · exact hji (h1 j i hj2 hp)
    exact ⟨fun j k hj _ => absurd hj (hnone j), fun _ j => hnone j⟩
  | connectFailure i hp =>
    have hnone : ∀ j, Function.update s.phase i TaskPhase.finished j
        ≠ TaskPhase.inflight := by
      intro j hj
      rcases update_inflight_elim _ _ _ _ hj with ⟨_, hv⟩ | ⟨hji, hj2⟩
      · cases hv
      · exact hji (h1 j i hj2 hp)
    exact ⟨fun j k hj _ => absurd hj (hnone j), fun _ j => hnone j⟩
  | deviceDisconnect hs =>
    have hnone : ∀ j, s.phase j ≠ TaskPhase.inflight := by
      refine h2 ?_
      rw [hs]
      intro hcon
      cases hcon
    exact ⟨fun j k hj _ => absurd hj (hnone j), fun _ j => hnone j⟩

/-- Every reachable system satisfies the single-inflight invariant. -/
theorem connReachable_inv {n : ℕ} (s : ConnSys n) (h : connReachable s) :
    atMostOneInflight s
    ∧ (s.status ≠ ConnectionStatus.CONNECTING →
        ∀ i, s.phase i ≠ TaskPhase.inflight) := by
  induction h with
  | refl =>
    constructor
    · intro j k hj
      have hcon : TaskPhase.ready = TaskPhase.inflight := hj
      cases hcon
    · intro _ j hj
      have hcon : TaskPhase.ready = TaskPhase.inflight := hj
      cases hcon
  | tail hsteps hstep ih =>
    exact connStep_inv _ _ hstep ih.1 ih.2

/-- C8: in every interleaving of advertisement callbacks for the matching
address, at most one connect call is in flight at any reachable system
state; a task enters the in-flight phase only through the locked re-check
from the Disconnected status while it was awaiting the lock; and no step
taken while the status is not Disconnected starts a new connect call. -/
theorem C8_single_connect_inflight :
    (∀ (m : ℕ) (s : ConnSys m), connReachable s → atMostOneInflight s)
    ∧ (∀ (m : ℕ) (s s2 : ConnSys m), ConnStep s s2 → ∀ i,
        s.phase i ≠ TaskPhase.inflight → s2.phase i = TaskPhase.inflight →
        s.status = ConnectionStatus.DISCONNECTED
        ∧ s.phase i = TaskPhase.waiting)
    ∧ (∀ (m : ℕ) (s s2 : ConnSys m), ConnStep s s2 →
        s.status ≠ ConnectionStatus.DISCONNECTED → ∀ i,
        s2.phase i = TaskPhase.inflight → s.phase i = TaskPhase.inflight) := by
  refine ⟨fun m s h => (connReachable_inv s h).1, ?_, ?_⟩
  · intro m s s2 hstep i hni hi
    cases hstep with
    | outerPass j hp hs =>
      rcases update_inflight_elim _ _ _ _ hi with ⟨_, hv⟩ | ⟨_, hj2⟩
      · cases hv
      · exact absurd hj2 hni
    | outerFail j hp hs =>
      rcases update_inflight_elim _ _ _ _ hi with ⟨_, hv⟩ | ⟨_, hj2⟩
      · cases hv
      · exact absurd hj2 hni
    | lockEnter j hp hs =>
      rcases update_inflight_elim _ _ _ _ hi with ⟨hij, _⟩ | ⟨_, hj2⟩
      · subst hij
        exact ⟨hs, hp⟩
      · exact absurd hj2 hni
    | lockAbort j hp hs =>
      rcases update_inflight_elim _ _ _ _ hi with ⟨_, hv⟩ | ⟨_, hj2⟩
      · cases hv
      · exact absurd hj2 hni
    | connectSuccess j hp =>
      rcases update_inflight_elim _ _ _ _ hi with ⟨_, hv⟩ | ⟨_, hj2⟩
      · cases hv
      · exact absurd hj2 hni
    | connectFailure j hp =>
      rcases update_inflight_elim _ _ _ _ hi with ⟨_, hv⟩ | ⟨_, hj2⟩
      · cases hv
      · exact absurd hj2 hni
    | deviceDisconnect hs => exact absurd hi hni
  · intro m s s2 hstep hnd i hi
    cases hstep with
    | outerPass j hp hs => exact absurd hs hnd
    | outerFail j hp hs =>
      rcases update_inflight_elim _ _ _ _ hi with ⟨_, hv⟩ | ⟨_, hj2⟩
      · cases hv
      · exact hj2
    | lockEnter j hp hs => exact absurd hs hnd
    | lockAbort j hp hs =>
      rcases update_inflight_elim _ _ _ _ hi with ⟨_, hv⟩ | ⟨_, hj2⟩
      · cases hv
      · exact hj2
    | connectSuccess j hp =>
      rcases update_inflight_elim _ _ _ _ hi with ⟨_, hv⟩ | ⟨_, hj2⟩
      · cases hv
      · exact hj2
    | connectFailure j hp =>
      rcases update_inflight_elim _ _ _ _ hi with ⟨_, hv⟩ | ⟨_, hj2⟩
      · cases hv
      · exact hj2
    | deviceDisconnect hs => exact hi

/-- Witness for C8 at the initial two-task system. -/
theorem C8_single_connect_inflight_witness :
    atMostOneInflight (connInit 2) :=
  C8_single_connect_inflight.1 2 (connInit 2) Relation.ReflTransGen.refl

/-! ### Shared lemmas for the stabilizer -/

/-- Repeat counting on the reset branch. -/
theorem seenAfter_reset (p : StabParams) (st : StabState) (s : AdvSample)
    (h : resetCond p st s) :
    (seenAfter p st s).repeatCount s.addr = some 1
    ∧ (seenAfter p st s).lastSeenQ s.addr
        = some (quantizeWeight s.weight p.weightEpsilonKg) := by
  unfold seenAfter
  rcases hsq : st.lastSeenQ s.addr with _ | pq
  · simp [hsq, mapSet]
  · rcases h with h | ⟨pq2, hpq2, hgt⟩
    · rw [hsq] at h
      cases h
    · rw [hsq] at hpq2
      injection hpq2 with he
      subst he
      simp [hsq, mapSet, hgt]

/-- Repeat counting on the increment branch. -/
theorem seenAfter_incr (p : StabParams) (st : StabState) (s : AdvSample)
    (n : ℕ) (hn : ¬ resetCond p st s) (hc : st.repeatCount s.addr = some n) :
    (seenAfter p st s).repeatCount s.addr = some (n + 1)
    ∧ (seenAfter p st s).lastSeenQ s.addr = st.lastSeenQ s.addr := by
  unfold seenAfter
  rcases hsq : st.lastSeenQ s.addr with _ | pq
  · exact absurd (Or.inl hsq) hn
  · have hle : ¬ (|quantizeWeight s.weight p.weightEpsilonKg - pq|
        > p.weightEpsilonKg / 2) :=
      fun hgt => hn (Or.inr ⟨pq, hsq, hgt⟩)
    simp [hsq, mapSet, hle, hc]

/-- The updated repeat count is always present and at least 1. -/
theorem seenAfter_count_some (p : StabParams) (st : StabState)
    (s : AdvSample) :
    ∃ n, (seenAfter p st s).repeatCount s.addr = some n ∧ 1 ≤ n := by
  unfold seenAfter
  rcases hsq : st.lastSeenQ s.addr with _ | pq
  · exact ⟨1, by simp [hsq, mapSet], le_refl 1⟩
  · by_cases hgt : |quantizeWeight s.weight p.weightEpsilonKg - pq|
        > p.weightEpsilonKg / 2
    · exact ⟨1, by simp [hsq, mapSet, hgt], le_refl 1⟩
    · exact ⟨(st.repeatCount s.addr).getD 1 + 1,
        by simp [hsq, mapSet, hgt], by omega⟩

/-- The stored last-seen value is within half an epsilon of the sample's
quantized weight. -/
theorem seenAfter_seen_close (p : StabParams) (st : StabState)
    (s : AdvSample) (heps : 0 ≤ p.weightEpsilonKg) :
    ∃ q, (seenAfter p st s).lastSeenQ s.addr = some q
      ∧ ¬ (|quantizeWeight s.weight p.weightEpsilonKg - q|
            > p.weightEpsilonKg / 2) := by
  unfold seenAfter
  rcases hsq : st.lastSeenQ s.addr with _ | pq
  · refine ⟨quantizeWeight s.weight p.weightEpsilonKg,
      by simp [hsq, mapSet], ?_⟩
    rw [sub_self, abs_zero]
    intro hcon
    have : (0:ℚ) ≤ p.weightEpsilonKg / 2 := by linarith
    linarith
  · by_cases hgt : |quantizeWeight s.weight p.weightEpsilonKg - pq|
        > p.weightEpsilonKg / 2
    · refine ⟨quantizeWeight s.weight p.weightEpsilonKg,
        by simp [hsq, mapSet, hgt], ?_⟩
      rw [sub_self, abs_zero]
      intro hcon
      have : (0:ℚ) ≤ p.weightEpsilonKg / 2 := by linarith
      linarith
    · exact ⟨pq, by simp [hsq, mapSet, hgt], hgt⟩

/-- The repeat-counting step never touches the emission dictionaries. -/
theorem seenAfter_emitMaps (p : StabParams) (st : StabState)
    (s : AdvSample) :
    (seenAfter p st s).lastEmitTs = st.lastEmitTs
    ∧ (seenAfter p st s).lastEmitQ = st.lastEmitQ := by
  unfold seenAfter
  constructor <;> split <;>
    first
      | rfl
      | (dsimp only; split <;> rfl)

/-- The step's stability flag and repeat/seen dictionaries. -/
theorem onDetect_proj (p : StabParams) (st : StabState) (s : AdvSample) :
    (onDetect p st s).2.1 = stableAfter p st s
    ∧ (onDetect p st s).1.lastSeenQ = (seenAfter p st s).lastSeenQ
    ∧ (onDetect p st s).1.repeatCount = (seenAfter p st s).repeatCount := by
  unfold onDetect
  split <;> exact ⟨rfl, rfl, rfl⟩

/-- The step on an emission. -/
theorem onDetect_emit_state (p : StabParams) (st : StabState)
    (s : AdvSample) (h : doEmitFlag p st s = true) :
    onDetect p st s =
      ({ seenAfter p st s with
          lastEmitTs := mapSet (seenAfter p st s).lastEmitTs s.addr s.now,
          lastEmitQ := mapSet (seenAfter p st s).lastEmitQ s.addr
            (quantizeWeight s.weight p.weightEpsilonKg) },
       stableAfter p st s,
       some { address := s.addr, weightKg := s.weight,
              impedanceOhm := s.imp, stable := stableAfter p st s,
              ts := s.now }) := by
  unfold onDetect
  rw [if_pos h]

/-- The step without an emission. -/
theorem onDetect_noemit_state (p : StabParams) (st : StabState)
    (s : AdvSample) (h : doEmitFlag p st s = false) :
    onDetect p st s = (seenAfter p st s, stableAfter p st s, none) := by
  unfold onDetect
  rw [if_neg (by simp [h])]

/-- A reading is produced exactly when the emission gate passes. -/
theorem onDetect_emit_iff (p : StabParams) (st : StabState)
    (s : AdvSample) :
    (onDetect p st s).2.2.isSome = true ↔ doEmitFlag p st s = true := by
  unfold onDetect
  split <;> simp_all

/-- The stability decision, as stated by the specification. -/
theorem stableAfter_iff (p : StabParams) (st : StabState) (s : AdvSample) :
    stableAfter p st s = true ↔
      (s.imp.isSome = true
        ∨ ∃ n, (seenAfter p st s).repeatCount s.addr = some n
            ∧ p.stableRepeats ≤ n) := by
  obtain ⟨n, hn, _⟩ := seenAfter_count_some p st s
  unfold stableAfter
  rw [hn]
  cases him : s.imp <;> simp

/-- Impedance makes a sample stable regardless of state. -/
theorem stableAfter_of_imp (p : StabParams) (st : StabState)
    (s : AdvSample) (h : s.imp.isSome = true) :
    stableAfter p st s = true := by
  unfold stableAfter
  rw [h]
  rfl

/-- The gate evaluates to false for a stable sample whose quantized
weight equals the last emitted one inside the cooldown window. -/
theorem doEmitFlag_false_stable (p : StabParams) (st1 : StabState)
    (s2 : AdvSample) (ts : ℚ)
    (hstable : stableAfter p st1 s2 = true)
    (hq : st1.lastEmitQ s2.addr
        = some (quantizeWeight s2.weight p.weightEpsilonKg))
    (heps : 0 ≤ p.weightEpsilonKg)
    (hts : st1.lastEmitTs s2.addr = some ts)
    (hlt : s2.now - ts < p.minEmitIntervalS) :
    doEmitFlag p st1 s2 = false := by
  unfold doEmitFlag
  rw [hstable]
  simp only [hq, hts, Option.getD_some, if_true]
  simp only [sub_self, abs_zero, Bool.or_eq_false_iff,
    decide_eq_false_iff_not, not_lt, not_le]
  constructor
  · linarith
  · linarith

/-- The emission gate evaluates exactly to the specified disjunction. -/
theorem doEmitFlag_iff (p : StabParams) (st : StabState) (s : AdvSample) :
    doEmitFlag p st s = true ↔
      emitGateSpec p st s (stableAfter p st s) := by
  unfold doEmitFlag emitGateSpec
  cases hstable : stableAfter p st s
  · cases hemit : p.emitTransients
    · simp [hstable, hemit]
    · by_cases hc : s.now - (st.lastEmitTs s.addr).getD 0
          < p.minEmitIntervalS
      · have hc2 : ¬ (s.now - (st.lastEmitTs s.addr).getD 0
            ≥ p.minEmitIntervalS) := not_le.mpr hc
        simp [hstable, hemit, hc, hc2]
      · have hc2 : s.now - (st.lastEmitTs s.addr).getD 0
            ≥ p.minEmitIntervalS := not_lt.mp hc
        rcases hq : st.lastEmitQ s.addr with _ | q
        · simp [hstable, hemit, hc, hc2, hq]
        · simp [hstable, hemit, hc, hc2, hq]
  · rcases hq : st.lastEmitQ s.addr with _ | q
    · simp [hstable, hq]
    · simp [hstable, hq]

/-- One identical impedance-free sample, given last-seen already equals
its quantized weight: the count increments and the flag is the repeat
threshold test. -/
theorem onDetect_ident_step (w : ℚ) (k : ℕ) (st : StabState)
    (h1 : st.lastSeenQ "A" = some (quantizeWeight w (1/50)))
    (h2 : st.repeatCount "A" = some k) :
    (onDetect defaultStabParams st ⟨"A", w, none, 0⟩).2.1
        = decide (10 ≤ k + 1)
    ∧ (onDetect defaultStabParams st ⟨"A", w, none, 0⟩).1.lastSeenQ "A"
        = some (quantizeWeight w (1/50))
    ∧ (onDetect defaultStabParams st ⟨"A", w, none, 0⟩).1.repeatCount "A"
        = some (k + 1) := by
  have heq : quantizeWeight w (1/50)
      = quantizeWeight (⟨"A", w, none, 0⟩ : AdvSample).weight
          defaultStabParams.weightEpsilonKg := rfl
  have hnreset : ¬ resetCond defaultStabParams st ⟨"A", w, none, 0⟩ := by
    rintro (h | ⟨pq, hpq, hgt⟩)
    · rw [h1] at h
      cases h
    · rw [h1] at hpq
      rw [← heq] at hgt
      injection hpq with he
      subst he
      rw [sub_self, abs_zero] at hgt
      have : ((1:ℚ)/50) / 2 = 1/100 := by norm_num
      rw [show defaultStabParams.weightEpsilonKg = 1/50 from rfl, this] at hgt
      linarith
  have hincr := seenAfter_incr defaultStabParams st ⟨"A", w, none, 0⟩ k
    hnreset h2
  have hproj := onDetect_proj defaultStabParams st ⟨"A", w, none, 0⟩
  refine ⟨?_, ?_, ?_⟩
  · rw [hproj.1]
    unfold stableAfter
    rw [show (⟨"A", w, none, 0⟩ : AdvSample).addr = "A" from rfl] at hincr ⊢
    rw [hincr.1]
    simp [defaultStabParams]
  · rw [congrFun hproj.2.1 "A"]
    rw [show (⟨"A", w, none, 0⟩ : AdvSample).addr = "A" from rfl] at hincr
    rw [hincr.2, h1]
  · rw [congrFun hproj.2.2 "A"]
    rw [show (⟨"A", w, none, 0⟩ : AdvSample).addr = "A" from rfl] at hincr
    exact hincr.1

/-- The first identical sample from the empty state. -/
theorem onDetect_first (w : ℚ) :
    (onDetect defaultStabParams initStabState ⟨"A", w, none, 0⟩).2.1 = false
    ∧ (onDetect defaultStabParams initStabState
        ⟨"A", w, none, 0⟩).1.lastSeenQ "A"
        = some (quantizeWeight w (1/50))
    ∧ (onDetect defaultStabParams initStabState
        ⟨"A", w, none, 0⟩).1.repeatCount "A" = some 1 := by
  have hreset := seenAfter_reset defaultStabParams initStabState
    ⟨"A", w, none, 0⟩ (Or.inl rfl)
  have hproj := onDetect_proj defaultStabParams initStabState
    ⟨"A", w, none, 0⟩
  rw [show (⟨"A", w, none, 0⟩ : AdvSample).addr = "A" from rfl] at hreset
  refine ⟨?_, ?_, ?_⟩
  · rw [hproj.1]
    unfold stableAfter
    rw [show (⟨"A", w, none, 0⟩ : AdvSample).addr = "A" from rfl, hreset.1]
    simp [defaultStabParams]
  · rw [congrFun hproj.2.1 "A", hreset.2]
    rfl
  · rw [congrFun hproj.2.2 "A", hreset.1]

/-- Stability flags along a run of identical impedance-free samples. -/
theorem stableFlags_ident (w : ℚ) :
    ∀ (n k : ℕ) (st : StabState),
      st.lastSeenQ "A" = some (quantizeWeight w (1/50)) →
      st.repeatCount "A" = some k →
      stableFlagsList defaultStabParams st
          (List.replicate n ⟨"A", w, none, 0⟩)
        = (List.range n).map (fun j => decide (10 ≤ k + 1 + j)) := by
  intro n
  induction n with
  | zero => intro k st h1 h2; rfl
  | succ m ih =>
    intro k st h1 h2
    have hstep := onDetect_ident_step w k st h1 h2
    rw [List.replicate_succ, stableFlagsList, hstep.1,
      ih (k + 1) _ hstep.2.1 hstep.2.2]
    rw [List.range_succ_eq_map, List.map_cons, List.map_map]
    congr 1 <;>
      first
        | (norm_num; done)
        | (apply List.map_congr_left
           intro j _
           have harith : k + 1 + 1 + j = k + 1 + (j + 1) := by omega
           simp [Function.comp, harith])

/-- C1: for every processed advertisement sample, the repeat counter is
reset to 1 and the quantized weight stored as last-seen exactly when
there is no prior last-seen quantized value for the address or the new
quantized value differs from it by more than half of weightEpsilonKg,
and is incremented by 1 otherwise; the sample is judged stable iff
impedance is present or the updated repeat counter has reached
stableRepeats. With the default tuning, ten consecutive
quantized-identical impedance-free samples become stable exactly on the
tenth, nine never do, and any sample carrying impedance is stable
immediately. -/
theorem C1_repeat_counting_and_stability :
    (∀ (p : StabParams) (st : StabState) (s : AdvSample),
      (resetCond p st s →
        (onDetect p st s).1.repeatCount s.addr = some 1
        ∧ (onDetect p st s).1.lastSeenQ s.addr
            = some (quantizeWeight s.weight p.weightEpsilonKg))
      ∧ (∀ n, ¬ resetCond p st s → st.repeatCount s.addr = some n →
          (onDetect p st s).1.repeatCount s.addr = some (n + 1)
          ∧ (onDetect p st s).1.lastSeenQ s.addr = st.lastSeenQ s.addr)
      ∧ ((onDetect p st s).2.1 = true ↔
          s.imp.isSome = true
          ∨ ∃ n, (onDetect p st s).1.repeatCount s.addr = some n
              ∧ p.stableRepeats ≤ n)
      ∧ (s.imp.isSome = true → (onDetect p st s).2.1 = true))
    ∧ (∀ w : ℚ,
        stableFlagsList defaultStabParams initStabState (identSamples w 10)
          = List.replicate 9 false ++ [true])
    ∧ (∀ w : ℚ,
        stableFlagsList defaultStabParams initStabState (identSamples w 9)
          = List.replicate 9 false) := by
  refine ⟨fun p st s => ⟨?_, ?_, ?_, ?_⟩, ?_, ?_⟩
  · intro h
    have hr := seenAfter_reset p st s h
    have hp := onDetect_proj p st s
    exact ⟨(congrFun hp.2.2 s.addr).trans hr.1,
      (congrFun hp.2.1 s.addr).trans hr.2⟩
  · intro n hn hc
    have hi := seenAfter_incr p st s n hn hc
    have hp := onDetect_proj p st s
    exact ⟨(congrFun hp.2.2 s.addr).trans hi.1,
      (congrFun hp.2.1 s.addr).trans hi.2⟩
  · have hp := onDetect_proj p st s
    rw [hp.1, congrFun hp.2.2 s.addr]
    exact stableAfter_iff p st s
  · intro h
    rw [(onDetect_proj p st s).1]
    exact stableAfter_of_imp p st s h
  · intro w
    have hfirst := onDetect_first w
    show stableFlagsList defaultStabParams initStabState
      (List.replicate 10 ⟨"A", w, none, 0⟩) = _
    rw [show (10:ℕ) = 9 + 1 from rfl, List.replicate_succ, stableFlagsList,
      hfirst.1, stableFlags_ident w 9 1 _ hfirst.2.1 hfirst.2.2]
    decide
  · intro w
    have hfirst := onDetect_first w
    show stableFlagsList defaultStabParams initStabState
      (List.replicate 9 ⟨"A", w, none, 0⟩) = _
    rw [show (9:ℕ) = 8 + 1 from rfl, List.replicate_succ, stableFlagsList,
      hfirst.1, stableFlags_ident w 8 1 _ hfirst.2.1 hfirst.2.2]
    decide

/-- C2: a reading is delivered iff the emission gate holds: stable and
(no prior emission, or the quantized weight moved by more than half an
epsilon from the last emitted value, or the cooldown elapsed), or not
stable and transient emission is enabled with the cooldown elapsed and
(no prior emission or a quantized move of at least minDeltaKg); on
emission the quantized value and timestamp are recorded and the
unquantized weight delivered. Consequently, after a stable emission an
identical subsequent sample does not re-emit before the quantized value
changes by more than half an epsilon or minEmitIntervalSeconds elapses. -/
theorem C2_emission_policy :
    (∀ (p : StabParams) (st : StabState) (s : AdvSample),
      ((onDetect p st s).2.2.isSome = true ↔
        emitGateSpec p st s ((onDetect p st s).2.1))
      ∧ (∀ r, (onDetect p st s).2.2 = some r →
          (onDetect p st s).1.lastEmitQ s.addr
              = some (quantizeWeight s.weight p.weightEpsilonKg)
          ∧ (onDetect p st s).1.lastEmitTs s.addr = some s.now
          ∧ r.weightKg = s.weight ∧ r.impedanceOhm = s.imp
          ∧ r.stable = (onDetect p st s).2.1 ∧ r.ts = s.now
          ∧ r.address = s.addr))
    ∧ (∀ (p : StabParams) (st : StabState) (s s2 : AdvSample)
        (r : AdvReadingM),
        0 ≤ p.weightEpsilonKg →
        (onDetect p st s).2.2 = some r → r.stable = true →
        s2.addr = s.addr → s2.weight = s.weight → s2.imp = s.imp →
        s2.now - s.now < p.minEmitIntervalS →
        (onDetect p ((onDetect p st s).1) s2).2.2 = none) := by
  constructor
  · intro p st s
    constructor
    · rw [(onDetect_proj p st s).1]
      exact (onDetect_emit_iff p st s).trans (doEmitFlag_iff p st s)
    · intro r hr
      have hd : doEmitFlag p st s = true := by
        refine (onDetect_emit_iff p st s).mp ?_
        rw [hr]
        rfl
      have hes := onDetect_emit_state p st s hd
      rw [hes] at hr
      injection hr with hr
      rw [hes]
      subst hr
      refine ⟨by simp [mapSet], by simp [mapSet], rfl, rfl, rfl, rfl, rfl⟩
  · intro p st s s2 r heps hr hstable haddr hw him hlt
    have hd : doEmitFlag p st s = true := by
      refine (onDetect_emit_iff p st s).mp ?_
      rw [hr]
      rfl
    have hes := onDetect_emit_state p st s hd
    have hstab1 : stableAfter p st s = true := by
      rw [hes] at hr
      injection hr with hr
      rw [← hr] at hstable
      exact hstable
    have hq1 : (onDetect p st s).1.lastEmitQ s.addr
        = some (quantizeWeight s.weight p.weightEpsilonKg) := by
      rw [hes]
      simp [mapSet]
    have hts1 : (onDetect p st s).1.lastEmitTs s.addr = some s.now := by
      rw [hes]
      simp [mapSet]
    have hseen1 : (onDetect p st s).1.lastSeenQ
        = (seenAfter p st s).lastSeenQ := by
      rw [hes]
    have hcount1 : (onDetect p st s).1.repeatCount
        = (seenAfter p st s).repeatCount := by
      rw [hes]
    have hwq : quantizeWeight s2.weight p.weightEpsilonKg
        = quantizeWeight s.weight p.weightEpsilonKg := by
      rw [hw]
    have hstable2 : stableAfter p (onDetect p st s).1 s2 = true := by
      cases himp : s.imp with
      | some z =>
        refine stableAfter_of_imp p _ s2 ?_
        rw [him, himp]
        rfl
      | none =>
        obtain ⟨m, hm, _⟩ := seenAfter_count_some p st s
        have hsr : p.stableRepeats ≤ m := by
          unfold stableAfter at hstab1
          rw [himp, hm] at hstab1
          simpa using hstab1
        obtain ⟨q, hq, hqle⟩ := seenAfter_seen_close p st s heps
        have hnreset : ¬ resetCond p (onDetect p st s).1 s2 := by
          rintro (hnone | ⟨pq, hpq, hgt⟩)
          · rw [haddr, congrFun hseen1 s.addr, hq] at hnone
            cases hnone
          · rw [haddr, congrFun hseen1 s.addr, hq] at hpq
            injection hpq with he
            subst he
            rw [hwq] at hgt
            exact hqle hgt
        have hc1 : (onDetect p st s).1.repeatCount s2.addr = some m := by
          rw [haddr, congrFun hcount1 s.addr]
          exact hm
        have hincr := seenAfter_incr p (onDetect p st s).1 s2 m hnreset hc1
        exact (stableAfter_iff p _ s2).mpr
          (Or.inr ⟨m + 1, hincr.1, by omega⟩)
    have hq2 : (onDetect p st s).1.lastEmitQ s2.addr
        = some (quantizeWeight s2.weight p.weightEpsilonKg) := by
      rw [haddr, hwq]
      exact hq1
    have hts2 : (onDetect p st s).1.lastEmitTs s2.addr = some s.now := by
      rw [haddr]
      exact hts1
    have hdf := doEmitFlag_false_stable p (onDetect p st s).1 s2 s.now
      hstable2 hq2 heps hts2 hlt
    rw [onDetect_noemit_state p (onDetect p st s).1 s2 hdf]

/-- Witness for C1 at a concrete first sample. -/
theorem C1_repeat_counting_and_stability_witness :
    (onDetect defaultStabParams initStabState
      ⟨"A", 70, none, 0⟩).1.repeatCount "A" = some 1 :=
  ((C1_repeat_counting_and_stability.1 defaultStabParams initStabState
    ⟨"A", 70, none, 0⟩).1 (Or.inl rfl)).1

/-- Witness for C2: a stable emission followed by an identical sample
half a second later produces no second emission. -/
theorem C2_emission_policy_witness :
    (onDetect defaultStabParams
        ((onDetect defaultStabParams initStabState
          ⟨"A", 70, some 500, 0⟩).1)
        ⟨"A", 70, some 500, 1/2⟩).2.2 = none := by
  have hd : doEmitFlag defaultStabParams initStabState
      ⟨"A", 70, some 500, 0⟩ = true :=
    (doEmitFlag_iff _ _ _).mpr
      (Or.inl ⟨stableAfter_of_imp _ _ _ rfl, Or.inl rfl⟩)
  have hr : (onDetect defaultStabParams initStabState
      ⟨"A", 70, some 500, 0⟩).2.2
      = some ⟨"A", 70, some 500, true, 0⟩ := by
    rw [onDetect_emit_state _ _ _ hd,
      stableAfter_of_imp defaultStabParams initStabState
        ⟨"A", 70, some 500, 0⟩ rfl]
  exact C2_emission_policy.2 defaultStabParams initStabState
    ⟨"A", 70, some 500, 0⟩ ⟨"A", 70, some 500, 1/2⟩
    ⟨"A", 70, some 500, true, 0⟩ (by norm_num [defaultStabParams]) hr
    rfl rfl rfl rfl (by norm_num [defaultStabParams])
